import Mathlib

/-!
Verification development for the `mdfluids` property-calculation library.

The Python sources under `mlfluids/` are shallowly embedded here:

* `mlfluids/utils/registry.py`  → `Registry.*` over an association list;
* `mlfluids/fluid/properties.py` → `Item`, `parse_property_string` and the
  default property metadata;
* `mlfluids/fluid/phases.py`    → the default phase metadata and
  `Registry.get_cp_index`;
* `mlfluids/fluid/fluid.py`     → `Fluid.*`: state controller, phase
  inference, property dispatcher and batch evaluation.

External collaborators (the CoolProp `AbstractState` primary backend, the
REFPROP `REFPROPdll` reference backend, and `scipy.optimize.brentq`) are not
part of the repository; they are modelled abstractly as function-valued
parameters (`Physics`, `Env.rp`) or, for `brentq`, as a bounded bisection
search following the specification's description of the external root
search.  Python floats are modelled as rationals; Python exceptions as an
explicit error type threaded through each computation; mutation of a
`Fluid` instance as explicit state passing of a `FluidState`.

`Property` and `Phase` are two frozen dataclasses in the source, both with
optional `name`/`cp_index`/`rp_label` fields; they are merged into the
single record `Item` (the source's duck typing never distinguishes them,
and both subclasses of `Registry` in fact share one class-level dict).
-/

/-- ASCII uppercase of one character, as in `Char.toUpper`:
`Char.ofNat (c.toNat - 32)` for `'a' ≤ c ≤ 'z'`, identity otherwise. -/
theorem charOfNatValid_toNat (n : Nat) (h : n.isValidChar) :
    (Char.ofNat n).toNat = n := by
  simp only [Char.ofNat, h, dite_true, Char.ofNatAux, Char.toNat, UInt32.toNat]
  rfl

theorem char_toUpper_idem (c : Char) : c.toUpper.toUpper = c.toUpper := by
  simp only [Char.toUpper]
  by_cases h : c.toNat ≥ 97 ∧ c.toNat ≤ 122
  · rw [if_pos h]
    have hv : (c.toNat - 32).isValidChar := by
      left
      omega
    rw [charOfNatValid_toNat _ hv]
    have h2 : ¬(c.toNat - 32 ≥ 97 ∧ c.toNat - 32 ≤ 122) := by omega
    rw [if_neg h2]
  · rw [if_neg h, if_neg h]

/-- Model of Python `str.upper()` (the registry keys and property strings in
this code base are ASCII, where `str.upper` is exactly a per-character
ASCII uppercase). -/
def pyUpper (s : String) : String := String.mk (s.data.map Char.toUpper)

/-- Model of Python `str.lower()`, used when matching error messages
case-insensitively. -/
def pyLower (s : String) : String := String.mk (s.data.map Char.toLower)

theorem pyUpper_idem (s : String) : pyUpper (pyUpper s) = pyUpper s := by
  unfold pyUpper
  congr 1
  rw [List.map_map]
  induction s.data with
  | nil => rfl
  | cons c cs ih =>
      simp only [List.map_cons, Function.comp_apply, char_toUpper_idem, ih]

/-- Python exception kinds raised by the embedded code.  The source only
ever catches `ValueError` (in `Fluid.set_state` and in
`parse_property_string`); the other kinds always propagate to the caller. -/
inductive Err where
  | valueError (msg : String)
  | keyError (msg : String)
  | typeError (msg : String)
  | zeroDivisionError
  | indexError
deriving DecidableEq, Repr

instance {ε α : Type} [DecidableEq ε] [DecidableEq α] : DecidableEq (Except ε α) := by
  intro a b
  cases a <;> cases b
  case error.error e f =>
    by_cases h : e = f
    · exact .isTrue (by rw [h])
    · exact .isFalse (by intro k; cases k; exact h rfl)
  case error.ok e v => exact .isFalse (by intro k; cases k)
  case ok.error v e => exact .isFalse (by intro k; cases k)
  case ok.ok v w =>
    by_cases h : v = w
    · exact .isTrue (by rw [h])
    · exact .isFalse (by intro k; cases k; exact h rfl)

/-- Metadata record stored in the registries.  `Property` and `Phase` from
the source are merged into one record; every field except `key` is
optional, exactly as in the two frozen dataclasses. -/
structure Item where
  key : String
  name : Option String := none
  symbol : Option String := none
  cp_index : Option Nat := none
  rp_label : Option String := none
deriving DecidableEq, Repr

/-- State of a `Registry` class: the insertion-ordered dict
`_registry : Dict[str, T]`, keys stored uppercased. -/
abbrev RegState := List (String × Item)

namespace Registry

/-- `Registry.register`: fails if `item.key.upper()` is already a key,
otherwise inserts the item at the end (dict insertion order). -/
def register (st : RegState) (item : Item) : Except Err RegState :=
  if (st.lookup (pyUpper item.key)).isSome then
    .error (.valueError (item.key ++ " já está registrado."))
  else
    .ok (st ++ [(pyUpper item.key, item)])

/-- `Registry.register_many`: sequential registration. -/
def register_many (st : RegState) (items : List Item) : Except Err RegState :=
  match items with
  | [] => .ok st
  | i :: rest =>
      match register st i with
      | .error e => .error e
      | .ok st1 => register_many st1 rest

/-- `Registry.get`: lookup by `key.upper()`, raising `KeyError` if absent. -/
def get (st : RegState) (key : String) : Except Err Item :=
  match st.lookup (pyUpper key) with
  | some it => .ok it
  | none => .error (.keyError (key ++ " não encontrado no registro."))

/-- `Registry.get_many`: the list comprehension `[get(key) for key in keys]`
(the first failing lookup propagates). -/
def get_many (st : RegState) (keys : List String) : Except Err (List Item) :=
  match keys with
  | [] => .ok []
  | k :: rest =>
      match get st k with
      | .error e => .error e
      | .ok it =>
          match get_many st rest with
          | .error e => .error e
          | .ok its => .ok (it :: its)

/-- `PhaseRegistry.get_cp_index`: linear scan of the registered values for
the first one with the given backend index, raising `KeyError` on miss. -/
def get_cp_index (st : RegState) (idx : Nat) : Except Err Item :=
  match st.find? (fun kv => kv.2.cp_index == some idx) with
  | some kv => .ok kv.2
  | none => .error (.keyError ("Índice não encontrado no registro."))

end Registry

/-- Character class `[A-Z0-9_]` of the property regex (matched against the
uppercased input). -/
def isBaseChar (c : Char) : Bool :=
  (65 ≤ c.toNat && c.toNat ≤ 90) || (48 ≤ c.toNat && c.toNat ≤ 57) || c.toNat == 95

def digitsToNat (ds : List Char) : Nat :=
  ds.foldl (fun acc c => 10 * acc + (c.toNat - 48)) 0

/-- Trailing part of the property regex: after base and optional index only
an optional `*` may remain before the end of the string. -/
def matchStarEnd (rest : List Char) : Option Bool :=
  match rest with
  | [] => some false
  | ['*'] => some true
  | _ => none

/-- Matcher for `PROPERTY_REGEX`, i.e.
`^(?P<prop>[A-Z0-9_]+)(?:\((?P<index>\d+)\))?(?P<normalized>\*)?$`,
on an already-uppercased character list.  Since `(`, `)`, `*` and digits
inside parentheses cannot overlap with the (greedy) base class in any
successful match, the regex is equivalent to this deterministic scan. -/
def matchPropertyRegex (l : List Char) : Option (String × Option Nat × Bool) :=
  let base := l.takeWhile isBaseChar
  let rest := l.dropWhile isBaseChar
  if base.isEmpty then none
  else
    match rest with
    | '(' :: r1 =>
        let ds := r1.takeWhile Char.isDigit
        let r2 := r1.dropWhile Char.isDigit
        if ds.isEmpty then none
        else
          match r2 with
          | ')' :: r3 =>
              match matchStarEnd r3 with
              | some norm => some (String.mk base, some (digitsToNat ds), norm)
              | none => none
          | _ => none
    | _ =>
        match matchStarEnd rest with
        | some norm => some (String.mk base, none, norm)
        | none => none

/-- `parse_property_string`: matches the regex against `prop_str.upper()`,
raising `ValueError` on grammar mismatch; resolves the base in the
registry, turning the registry's `KeyError` into a `ValueError`. -/
def parse_property_string (st : RegState) (prop_str : String) :
    Except Err (Item × Option Nat × Bool) :=
  match matchPropertyRegex (pyUpper prop_str).data with
  | none => .error (.valueError ("Invalid property string format: " ++ prop_str))
  | some (base, index, normalized) =>
      match Registry.get st (pyUpper base) with
      | .error _ => .error (.valueError ("Propriedade não encontrada: " ++ prop_str))
      | .ok prop => .ok (prop, index, normalized)

/-- CoolProp phase enum (`iphase_*`), an opaque backend constant set. -/
def iphase_liquid : Nat := 0

def iphase_supercritical : Nat := 1

def iphase_supercritical_gas : Nat := 2

def iphase_supercritical_liquid : Nat := 3

def iphase_critical_point : Nat := 4

def iphase_gas : Nat := 5

def iphase_twophase : Nat := 6

def iphase_not_imposed : Nat := 8

/-- CoolProp parameter enum (`iT`, `iP`, ...): opaque distinct backend
constants; the concrete numerals are arbitrary but pairwise distinct and
disjoint from the phase enum. -/
def iT : Nat := 100

def iP : Nat := 101

def iDmolar : Nat := 102

def iQ : Nat := 103

def iPIP : Nat := 104

def iviscosity : Nat := 105

def iconductivity : Nat := 106

def iT_critical : Nat := 107

def ip_critical : Nat := 108

/-- Default phase metadata registered by `_register_default_phases`. -/
def liquidPhase : Item :=
  { key := "liquid", name := some "liquid", cp_index := some iphase_liquid,
    rp_label := some "L" }

def gasPhase : Item :=
  { key := "gas", name := some "gas", cp_index := some iphase_gas,
    rp_label := some "G" }

def scGasPhase : Item :=
  { key := "supercritical_gas", name := some "supercritical gas",
    cp_index := some iphase_supercritical_gas, rp_label := some "G" }

def scLiquidPhase : Item :=
  { key := "supercritical_liquid", name := some "supercritical liquid",
    cp_index := some iphase_supercritical_liquid, rp_label := some "L" }

def scPhase : Item :=
  { key := "supercritical", name := some "supercritical",
    cp_index := some iphase_supercritical }

def criticalPointPhase : Item :=
  { key := "critical_point", name := some "critical point",
    cp_index := some iphase_critical_point }

def twophasePhase : Item :=
  { key := "twophase", name := some "twophase",
    cp_index := some iphase_twophase }

/-- Default property metadata registered by `_register_default_properties`. -/
def propT : Item :=
  { key := "T", name := some "temperature", symbol := some "T",
    cp_index := some iT, rp_label := some "T" }

def propP : Item :=
  { key := "P", name := some "pressure", symbol := some "P",
    cp_index := some iP, rp_label := some "P" }

def propD : Item :=
  { key := "D", name := some "molar density", symbol := some "\\rho",
    cp_index := some iDmolar, rp_label := some "D" }

def propPIP : Item :=
  { key := "PIP", name := some "phase indication parameter",
    symbol := some "\\Pi", cp_index := some iPIP, rp_label := some "PIP" }

def propVIS : Item :=
  { key := "VIS", name := some "shear viscosity", symbol := some "\\mu",
    cp_index := some iviscosity, rp_label := some "VIS" }

def propTCX : Item :=
  { key := "TCX", name := some "thermal conductivity",
    symbol := some "\\kappa", cp_index := some iconductivity,
    rp_label := some "TCX" }

/-- Metadata inserted by `@Fluid.register_prop("PHASE")`: a `Property` with
only a key, served by a user handler. -/
def propPHASE : Item := { key := "PHASE" }

def defaultItems : List Item :=
  [liquidPhase, gasPhase, scGasPhase, scLiquidPhase, scPhase,
   criticalPointPhase, twophasePhase,
   propT, propP, propD, propPIP, propVIS, propTCX, propPHASE]

/-- The registry contents after module import: `phases.py` registers its
seven phases, then `properties.py` its six properties, then `fluid.py`
registers `PHASE` via the decorator.  (The two `Registry` subclasses share
the single class-level dict of the base class, so all fourteen items live
in one insertion-ordered table.) -/
def defaultStore : RegState :=
  [("LIQUID", liquidPhase), ("GAS", gasPhase),
   ("SUPERCRITICAL_GAS", scGasPhase), ("SUPERCRITICAL_LIQUID", scLiquidPhase),
   ("SUPERCRITICAL", scPhase), ("CRITICAL_POINT", criticalPointPhase),
   ("TWOPHASE", twophasePhase),
   ("T", propT), ("P", propP), ("D", propD), ("PIP", propPIP),
   ("VIS", propVIS), ("TCX", propTCX), ("PHASE", propPHASE)]

theorem defaultStore_registration :
    Registry.register_many [] defaultItems = Except.ok defaultStore := by
  decide

/-- Values produced by property calculations: Python floats (as rationals),
strings (the `PHASE` handler returns a phase name), and vectors (a
user-registered handler may return a sequence that an output index then
subscripts). -/
inductive PVal where
  | num (x : ℚ)
  | str (s : String)
  | vec (xs : List ℚ)
deriving DecidableEq, Repr

/-- Snapshot of a converged CoolProp `AbstractState`: the keyed outputs of
the flash (a partial table; querying an absent key raises), and the result
of the backend `phase()` query — `none` models the `ValueError` CoolProp
raises when the backend implements no phase routine for the composition. -/
structure CPState where
  keyed : List (Nat × ℚ)
  phaseIdx : Option Nat
deriving DecidableEq, Repr

/-- `AbstractState.keyed_output(idx)` on a converged state. -/
def CPState.keyedOut (st : CPState) (idx : Nat) : Except Err ℚ :=
  match st.keyed.lookup idx with
  | some v => .ok v
  | none => .error (.valueError ("Unable to use output with index " ++ toString idx))

/-- The two flash-input pairs handed to `AbstractState.update`, i.e. the
arguments of `generate_update_pair(i1, v1, i2, v2)`. -/
abbrev FlashInputs := (Nat × ℚ) × (Nat × ℚ)

/-- `PyGuessesStructure` as filled by `set_state`: the previous converged
triple. -/
structure Guesses where
  T : Option ℚ
  p : Option ℚ
  rhomolar : Option ℚ
deriving DecidableEq, Repr

/-- Abstract behaviour of the primary EOS backend (external collaborator):
`flash` is `AbstractState.update` and `flashG` is
`AbstractState.update_with_guesses`, each run under the phase index
currently imposed on the state object via `specify_phase`. -/
structure Physics where
  flash : Nat → FlashInputs → Except Err CPState
  flashG : Nat → FlashInputs → Guesses → Except Err CPState

/-- The mutable part of the CoolProp state handle owned by one `Fluid`:
the currently imposed phase index and the last converged flash snapshot. -/
structure CPBackend where
  spec : Nat
  cur : Option CPState
deriving DecidableEq, Repr

/-- Mutable attributes of one `Fluid` instance: current phase metadata,
the phase-imposed flag, the last-converged `(T, P, D)` triple, the
configured rounding precision, and the backend handle. -/
structure FluidState where
  phase : Option Item
  phase_imposed : Bool
  T : Option ℚ
  P : Option ℚ
  D : Option ℚ
  round_decimals : Option Nat
  backend : CPBackend
deriving DecidableEq, Repr

/-- A fresh `Fluid` instance (`Fluid.__init__`): no phase, flag unset,
no converged state, default rounding of six decimals, and a fresh
backend handle with no imposed phase. -/
def FluidState.init : FluidState :=
  { phase := none, phase_imposed := false, T := none, P := none, D := none,
    round_decimals := some 6,
    backend := { spec := iphase_not_imposed, cur := none } }

/-- Result vector of one `REFPROPdll` call: output values, an integer
error code and the backend error text. -/
structure RpResult where
  Output : List ℚ
  ierr : Int
  herr : String

/-- Process-wide environment of a `Fluid` computation: the primary backend
behaviour, the shared metadata registry, the user-registered property
handlers (`Fluid._PROPERTY_HANDLERS`), the reference backend
(`REFPROPdll`, reduced to its request label and the `(T, D)` state
arguments), and the normalization fluid (`Fluid._NORM_FLUID`). -/
structure Env where
  phys : Physics
  store : RegState
  handlers : List (String × (FluidState → Except Err PVal))
  rp : String → ℚ → ℚ → RpResult
  normF : Option FluidState

namespace Fluid

/-- `Fluid.get_normalizing_fluid`: raises `ValueError` when no reference
fluid has been set. -/
def get_normalizing_fluid (env : Env) : Except Err FluidState :=
  match env.normF with
  | some nf => .ok nf
  | none =>
      .error (.valueError "Fluido de referência não definido. use set_reference_fluid() primeiro.")

/-- Python float division: `ZeroDivisionError` on a zero denominator. -/
def pyDiv (a b : ℚ) : Except Err ℚ :=
  if b = 0 then .error .zeroDivisionError else .ok (a / b)

/-- `norm_fluid._state.keyed_output(prop.cp_index)` — a `None` index is a
`TypeError`, an un-flashed state a `ValueError`. -/
def normKeyed (nf : FluidState) (it : Item) : Except Err ℚ :=
  match it.cp_index with
  | none => .error (.typeError "keyed_output: parameter index is None")
  | some i =>
      match nf.backend.cur with
      | none => .error (.valueError "keyed_output: state not initialized")
      | some st => st.keyedOut i

/-- The resolve-before-flash step of `set_state`: a normalization-flagged
input value is multiplied by the reference fluid value of the same
property before flashing. -/
def resolveVals (env : Env) (p1 : Item) (n1 : Bool) (p2 : Item) (n2 : Bool)
    (v1 v2 : ℚ) : Except Err (ℚ × ℚ) :=
  if n1 || n2 then
    match get_normalizing_fluid env with
    | .error e => .error e
    | .ok nf =>
        match (if n1 then (normKeyed nf p1).map (fun x => v1 * x) else .ok v1) with
        | .error e => .error e
        | .ok w1 =>
            match (if n2 then (normKeyed nf p2).map (fun x => v2 * x) else .ok v2) with
            | .error e => .error e
            | .ok w2 => .ok (w1, w2)
  else .ok (v1, v2)

/-- `Fluid.specify_phase(phase_key, impose)`: look the phase up, record it
on the instance, impose its backend index on the state object, and set the
phase-imposed flag only when `impose` is true. -/
def specify_phase (env : Env) (f : FluidState) (phase_key : String)
    (impose : Bool) : FluidState × Option Err :=
  match Registry.get env.store phase_key with
  | .error e => (f, some e)
  | .ok ph =>
      let f1 := { f with phase := some ph }
      match ph.cp_index with
      | none => (f1, some (.typeError "specify_phase: phase index is None"))
      | some i =>
          let f2 := { f1 with backend := { f1.backend with spec := i } }
          (if impose then { f2 with phase_imposed := true } else f2, none)

/-- Absolute value on the rationals, written with an explicit sign test so
that it evaluates by kernel reduction. -/
def ratAbs (x : ℚ) : ℚ := if x < 0 then -x else x

theorem ratAbs_eq_abs (x : ℚ) : ratAbs x = |x| := by
  unfold ratAbs
  by_cases h : x < 0
  · rw [if_pos h, abs_of_neg h]
  · rw [if_neg h, abs_of_nonneg (le_of_not_lt h)]

/-- `np.isclose(a, b)` with the NumPy defaults
`rtol = 1e-05`, `atol = 1e-08`: `|a - b| ≤ atol + rtol * |b|`. -/
def np_isclose (a b : ℚ) : Bool :=
  ratAbs (a - b) ≤ 1 / 100000000 + (1 / 100000) * ratAbs b

/-- Manual phase classification for mixtures (`Fluid._calc_phase`,
fallback branch): decision list over vapor quality `Q`, reduced pressure
`P_r` and reduced temperature `T_r`, in source order. -/
def calc_phase_manual (st : RegState) (Q P_r T_r : ℚ) : Except Err Item :=
  if np_isclose T_r 1 && np_isclose P_r 1 then Registry.get st "critical_point"
  else if T_r ≥ 1 ∧ P_r ≥ 1 then Registry.get st "supercritical"
  else if T_r > 1 ∧ P_r < 1 then Registry.get st "supercritical_gas"
  else if T_r < 1 ∧ P_r > 1 then Registry.get st "supercritical_liquid"
  else if Q > 1 then Registry.get st "gas"
  else if Q < 0 then Registry.get st "liquid"
  else if 0 ≤ Q ∧ Q ≤ 1 then Registry.get st "twophase"
  else .error (.valueError "Erro na determinação da fase!")

/-- The phase-classification step of `Fluid._calc_phase`: ask the backend
for its phase index and resolve it in the registry; when the backend
raises (no phase routine for the composition), classify manually from
vapor quality and the reduced coordinates. -/
def determine_phase (env : Env) (st : CPState) : Except Err Item :=
  match st.phaseIdx with
  | some idx => Registry.get_cp_index env.store idx
  | none =>
      match st.keyedOut iQ with
      | .error e => .error e
      | .ok q =>
          match st.keyedOut iP, st.keyedOut ip_critical with
          | .ok p, .ok pc =>
              match pyDiv p pc with
              | .error e => .error e
              | .ok pr =>
                  match st.keyedOut iT, st.keyedOut iT_critical with
                  | .ok t, .ok tc =>
                      match pyDiv t tc with
                      | .error e => .error e
                      | .ok tr => calc_phase_manual env.store q pr tr
                  | .error e, _ => .error e
                  | _, .error e => .error e
          | .error e, _ => .error e
          | _, .error e => .error e

/-- `Fluid._calc_phase`: no-op when the phase-imposed flag is set;
otherwise classify via the backend `phase()` query (with the registry
index scan) or, when the backend raises, via the manual classifier; then
record the phase, re-flash at the imposed phase from `(Dmolar, T)`, and
clear the imposition on the backend. -/
def calc_phase (env : Env) (f : FluidState) : FluidState × Option Err :=
  if f.phase_imposed then (f, none)
  else
    match f.backend.cur with
    | none => (f, some (.valueError "state not initialized"))
    | some st =>
        match determine_phase env st with
        | .error e => (f, some e)
        | .ok ph =>
            let f1 := { f with phase := some ph }
            match ph.cp_index with
            | none => (f1, some (.typeError "specify_phase: phase index is None"))
            | some i =>
                let f2 := { f1 with backend := { f1.backend with spec := i } }
                match st.keyedOut iDmolar with
                | .error e => (f2, some e)
                | .ok d =>
                    match st.keyedOut iT with
                    | .error e => (f2, some e)
                    | .ok t =>
                        match env.phys.flash i ((iDmolar, d), (iT, t)) with
                        | .error e => (f2, some e)
                        | .ok st2 =>
                            ({ f2 with backend :=
                                { spec := iphase_not_imposed, cur := some st2 } },
                             none)

/-- The flash attempt of `set_state`: the guess-assisted update path when
`use_guesses` is set and a previous converged density exists, the plain
update path otherwise. -/
def attemptUpdate (env : Env) (f : FluidState) (use_guesses : Bool)
    (inp : FlashInputs) : Except Err CPState :=
  if use_guesses && f.D.isSome then
    env.phys.flashG f.backend.spec inp { T := f.T, p := f.P, rhomolar := f.D }
  else
    env.phys.flash f.backend.spec inp

/-- Substring test for the two-phase convergence failure:
`re.search(r"(2-phase|two-phase)", msg, re.IGNORECASE)`.  Both patterns
are lowercase ASCII, so the ignore-case search is a plain infix search on
the lowercased message. -/
def prefixMatch : List Char → List Char → Bool
  | [], _ => true
  | _ :: _, [] => false
  | a :: p, b :: s => a == b && prefixMatch p s

def infixMatch (p : List Char) (s : List Char) : Bool :=
  match s with
  | [] => p.isEmpty
  | _ :: rest => prefixMatch p s || infixMatch p rest

def twoPhaseMsg (msg : String) : Bool :=
  infixMatch "2-phase".data (pyLower msg).data ||
    infixMatch "two-phase".data (pyLower msg).data

/-- The residual closure of the two-phase fallback in `set_state`: flash
the backend on `(Q, propA)` at the currently imposed phase and return the
deviation of the resolved `propB` output from the resolved target; each
evaluation leaves the flashed state on the backend handle. -/
def residual (env : Env) (i1 : Nat) (v1 : ℚ) (i2 : Nat) (v2 : ℚ)
    (q : ℚ) (f : FluidState) : FluidState × Except Err ℚ :=
  match env.phys.flash f.backend.spec ((iQ, q), (i1, v1)) with
  | .error e => (f, .error e)
  | .ok st =>
      let f1 := { f with backend := { f.backend with cur := some st } }
      match st.keyedOut i2 with
      | .error e => (f1, .error e)
      | .ok y => (f1, .ok (y - v2))

/-- Modelled from the spec: `scipy.optimize.brentq(residual, 0.0, 1.0,
xtol=1e-3)` is an external bounded root search over the closed interval;
it fails when the residual has the same sign at both endpoints, and
otherwise narrows a sign-changing bracket until it finds a trial point
whose residual is within tolerance.  Here it is a fuel-bounded bisection;
residual evaluations thread the fluid state exactly as the Python closure
mutates the backend handle. -/
def brentqLoop (g : ℚ → FluidState → FluidState × Except Err ℚ) (tol : ℚ) :
    Nat → ℚ → ℚ → ℚ → FluidState → FluidState × Except Err ℚ
  | 0, _, _, _, f => (f, .error (.valueError "brentq: maximum iterations exceeded"))
  | fuel + 1, a, b, fa, f =>
      match g ((a + b) / 2) f with
      | (f1, .error e) => (f1, .error e)
      | (f1, .ok fm) =>
          if ratAbs fm ≤ tol then (f1, .ok ((a + b) / 2))
          else if fa * fm ≤ 0 then brentqLoop g tol fuel a ((a + b) / 2) fa f1
          else brentqLoop g tol fuel ((a + b) / 2) b fm f1

def brentqFuel : Nat := 100

def brentq (g : ℚ → FluidState → FluidState × Except Err ℚ)
    (a b tol : ℚ) (f : FluidState) : FluidState × Except Err ℚ :=
  match g a f with
  | (f1, .error e) => (f1, .error e)
  | (f1, .ok fa) =>
      match g b f1 with
      | (f2, .error e) => (f2, .error e)
      | (f2, .ok fb) =>
          if fa * fb > 0 then
            (f2, .error (.valueError "f(a) and f(b) must have different signs"))
          else brentqLoop g tol brentqFuel a b fa f2

/-- The final lines of `set_state`: record the converged `(T, P, D)`
triple from the backend state. -/
def finalize (f : FluidState) : FluidState × Option Err :=
  match f.backend.cur with
  | none => (f, some (.valueError "state not initialized"))
  | some st =>
      match st.keyedOut iT with
      | .error e => (f, some e)
      | .ok t =>
          let fT := { f with T := some t }
          match st.keyedOut iP with
          | .error e => (fT, some e)
          | .ok p =>
              let fP := { fT with P := some p }
              match st.keyedOut iDmolar with
              | .error e => (fP, some e)
              | .ok d => ({ fP with D := some d }, none)

/-- The try-block of `set_state`: attempt the flash and, on success, run
phase inference on the updated handle. -/
def try_flash_phase (env : Env) (f : FluidState) (use_guesses : Bool)
    (inp : FlashInputs) : FluidState × Option Err :=
  match attemptUpdate env f use_guesses inp with
  | .ok st => calc_phase env { f with backend := { f.backend with cur := some st } }
  | .error e => (f, some e)

/-- The except-block of `set_state`: a `ValueError` whose message signals
two-phase non-convergence triggers the quality root search after imposing
the two-phase phase (without the caller-imposed flag); every other error
is re-raised. -/
def handle_flash_error (env : Env) (i1 : Nat) (v1 : ℚ) (i2 : Nat) (v2 : ℚ)
    (f1 : FluidState) (e : Err) : FluidState × Option Err :=
  match e with
  | .valueError msg =>
      if twoPhaseMsg msg then
        match specify_phase env f1 "twophase" false with
        | (f2, some e2) => (f2, some e2)
        | (f2, none) =>
            match brentq (residual env i1 v1 i2 v2) 0 1 (1 / 1000) f2 with
            | (f3, .error e3) => (f3, some e3)
            | (f3, .ok _) => finalize f3
      else (f1, some (.valueError msg))
  | _ => (f1, some e)

/-- `Fluid.set_state(prop_str_1, prop_str_2, prop_values, use_guesses)`:
parse the two property requests, resolve normalized values against the
reference fluid, flash the backend (with guesses when requested and
available), infer the phase, and record the converged triple.  A
`ValueError` from the flash or the phase step whose message signals
two-phase non-convergence triggers the quality root-search fallback;
every other error propagates. -/
def set_state (env : Env) (f : FluidState) (prop_str_1 prop_str_2 : String)
    (prop_values : ℚ × ℚ) (use_guesses : Bool) : FluidState × Option Err :=
  match parse_property_string env.store prop_str_1 with
  | .error e => (f, some e)
  | .ok (p1, _, n1) =>
  match parse_property_string env.store prop_str_2 with
  | .error e => (f, some e)
  | .ok (p2, _, n2) =>
  match resolveVals env p1 n1 p2 n2 prop_values.1 prop_values.2 with
  | .error e => (f, some e)
  | .ok (v1, v2) =>
  match p1.cp_index, p2.cp_index with
  | none, _ => (f, some (.typeError "generate_update_pair: parameter index is None"))
  | some _, none => (f, some (.typeError "generate_update_pair: parameter index is None"))
  | some i1, some i2 =>
  match try_flash_phase env f use_guesses ((i1, v1), (i2, v2)) with
  | (f1, none) => finalize f1
  | (f1, some e) => handle_flash_error env i1 v1 i2 v2 f1 e

end Fluid

namespace Fluid

/-- Python subscription `value[out_index]` on a handler/backend result:
sequences index (with `IndexError` out of range), scalars and strings
raise `TypeError`. -/
def subscript (v : PVal) (i : Nat) : Except Err PVal :=
  match v with
  | .vec xs =>
      match xs.get? i with
      | some x => .ok (.num x)
      | none => .error .indexError
  | _ => .error (.typeError "object is not subscriptable")

/-- `Fluid._calc_prop_hd`: the user-registered handler strategy. -/
def calc_prop_hd (env : Env) (f : FluidState) (it : Item) (oi : Option Nat) :
    Except Err PVal :=
  match env.handlers.lookup it.key with
  | none => .error (.valueError ("Erro no cálculo da propriedade " ++ it.key ++ "."))
  | some h =>
      match h f with
      | .error e => .error e
      | .ok v =>
          match oi with
          | none => .ok v
          | some i => subscript v i

/-- `Fluid._calc_prop_cp`: the primary-backend strategy — `keyed_output`
on the current state (a scalar; subscribing it with an output index is a
`TypeError`, as in CoolProp). -/
def calc_prop_cp (f : FluidState) (it : Item) (oi : Option Nat) :
    Except Err PVal :=
  match it.cp_index with
  | none => .error (.valueError ("Erro no cálculo da propriedade " ++ it.key ++ "."))
  | some i =>
      match f.backend.cur with
      | none => .error (.valueError "keyed_output: state not initialized")
      | some st =>
          match st.keyedOut i with
          | .error e => .error e
          | .ok v =>
              match oi with
              | none => .ok (.num v)
              | some j => subscript (.num v) j

/-- The request label `_calc_prop_rp` passes to `REFPROPdll`, exactly as
composed by the source expression
`prop.rp_label + str(out_index + 1) if out_index else ""`:
the conditional governs the whole concatenation, and a `None` or `0`
output index is falsy. -/
def rp_request_label (rp_label : String) (out_index : Option Nat) : String :=
  match out_index with
  | some i => if i ≠ 0 then rp_label ++ toString (i + 1) else ""
  | none => ""

/-- `Fluid._calc_prop_rp`: the reference-backend strategy — one
`REFPROPdll` call at the current `(T, D)` state; an error code above 100
raises `ValueError` with the backend error text, otherwise the first
output is returned. -/
def calc_prop_rp (env : Env) (f : FluidState) (it : Item) (oi : Option Nat) :
    Except Err PVal :=
  match it.rp_label with
  | none => .error (.valueError ("Erro no cálculo da propriedade " ++ it.key ++ "."))
  | some lbl =>
      match f.backend.cur with
      | none => .error (.valueError "keyed_output: state not initialized")
      | some st =>
          match st.keyedOut iT with
          | .error e => .error e
          | .ok t =>
              match st.keyedOut iDmolar with
              | .error e => .error e
              | .ok d =>
                  let results := env.rp (rp_request_label lbl oi) t d
                  if results.ierr > 100 then .error (.valueError results.herr)
                  else
                    match results.Output.get? 0 with
                    | some v => .ok (.num v)
                    | none => .error .indexError

/-- The three calculation strategies of `Fluid._calc_prop`. -/
inductive Strategy where
  | hd
  | cp
  | rp
deriving DecidableEq, Repr

/-- Strategy selection of `Fluid._calc_prop`: user handler first, then the
primary backend when a `cp_index` exists, then the reference backend when
an `rp_label` exists, otherwise an unsupported-property failure. -/
def selectStrategy (env : Env) (it : Item) : Except Err Strategy :=
  if (env.handlers.lookup it.key).isSome then .ok .hd
  else if it.cp_index.isSome then .ok .cp
  else if it.rp_label.isSome then .ok .rp
  else .error (.valueError ("Não foi possível calcular a propriedade " ++ it.key ++ "."))

def runStrategy (env : Env) (s : Strategy) (f : FluidState) (it : Item)
    (oi : Option Nat) : Except Err PVal :=
  match s with
  | .hd => calc_prop_hd env f it oi
  | .cp => calc_prop_cp f it oi
  | .rp => calc_prop_rp env f it oi

/-- Python `value / norm_value` in `_calc_prop`: float division with
`ZeroDivisionError` on a zero reference, `TypeError` on non-numbers. -/
def pvalDiv (a b : PVal) : Except Err PVal :=
  match a, b with
  | .num x, .num y =>
      match pyDiv x y with
      | .error e => .error e
      | .ok z => .ok (.num z)
  | _, _ => .error (.typeError "unsupported operand types for division")

/-- Round half to even on an integer boundary, as `np.round` does. -/
def roundHalfEven (x : ℚ) : ℤ :=
  let n := ⌊x⌋
  let r := x - (n : ℚ)
  if r < 1 / 2 then n
  else if r > 1 / 2 then n + 1
  else if n % 2 = 0 then n else n + 1

/-- `np.round(value, decimals)` on a scalar. -/
def np_round (d : Nat) (x : ℚ) : ℚ :=
  (roundHalfEven (x * 10 ^ d) : ℚ) / 10 ^ d

/-- The optional rounding step of `_calc_prop`: only floating-point
scalars are rounded; other values pass through. -/
def roundStep (f : FluidState) (v : PVal) : PVal :=
  match f.round_decimals, v with
  | some d, .num x => .num (np_round d x)
  | _, _ => v

/-- The normalization step of `_calc_prop`: when the request carries the
`*` flag, the same strategy is invoked on the normalization fluid for the
identical request and the raw value is divided by the result. -/
def normalizeStep (env : Env) (strat : Strategy) (it : Item) (oi : Option Nat)
    (normalized : Bool) (value : PVal) : Except Err PVal :=
  if normalized then
    match get_normalizing_fluid env with
    | .error e => .error e
    | .ok nf =>
        match runStrategy env strat nf it oi with
        | .error e => .error e
        | .ok nv => pvalDiv value nv
  else .ok value

/-- `Fluid._calc_prop(prop_str)`: parse, select the strategy, compute the
raw value, divide by the reference fluid value of the identical request
when normalization-flagged, and round. -/
def calc_prop (env : Env) (f : FluidState) (prop_str : String) :
    Except Err PVal :=
  match parse_property_string env.store prop_str with
  | .error e => .error e
  | .ok (it, oi, normalized) =>
      match selectStrategy env it with
      | .error e => .error e
      | .ok strat =>
          match runStrategy env strat f it oi with
          | .error e => .error e
          | .ok value =>
              match normalizeStep env strat it oi normalized value with
              | .error e => .error e
              | .ok value2 => .ok (roundStep f value2)

/-- `Fluid.calc_props(prop_strs)`: the list of property values (the first
failure propagates, as in the Python list comprehension). -/
def calc_props (env : Env) (f : FluidState) (prop_strs : List String) :
    Except Err (List PVal) :=
  prop_strs.mapM (calc_prop env f)

/-- `Fluid.set_states_calc_props`: for each row of input values, `set_state`
with guesses enabled followed by `calc_props`; a failure on any row aborts
the whole batch. -/
def set_states_calc_props (env : Env) (f : FluidState)
    (prop_str_1 prop_str_2 : String) (prop_values : List (ℚ × ℚ))
    (target_props : List String) :
    FluidState × Except Err (List (List PVal)) :=
  match prop_values with
  | [] => (f, .ok [])
  | v :: rest =>
      match set_state env f prop_str_1 prop_str_2 v true with
      | (f1, some e) => (f1, .error e)
      | (f1, none) =>
          match calc_props env f1 target_props with
          | .error e => (f1, .error e)
          | .ok row =>
              match set_states_calc_props env f1 prop_str_1 prop_str_2 rest
                  target_props with
              | (f2, .error e) => (f2, .error e)
              | (f2, .ok tbl) => (f2, .ok (row :: tbl))

/-- The `PHASE` handler registered at module import: returns
`self.phase.name`. -/
def phase_handler (f : FluidState) : Except Err PVal :=
  match f.phase with
  | none => .error (.typeError "NoneType has no attribute name")
  | some ph =>
      match ph.name with
      | some nm => .ok (.str nm)
      | none => .error (.typeError "phase name is None")

/-- The process-wide handler table after module import. -/
def defaultHandlers : List (String × (FluidState → Except Err PVal)) :=
  [("PHASE", phase_handler)]

/-- Modelled from the spec (claim C7 reference semantics): the value of one
batch cell computed independently — `set_state` on the row inputs from the
given pre-batch fluid state, followed by `calc_props` for the requested
properties. -/
def independentEval (env : Env) (f : FluidState)
    (prop_str_1 prop_str_2 : String) (v : ℚ × ℚ)
    (target_props : List String) : Except Err (List PVal) :=
  match set_state env f prop_str_1 prop_str_2 v true with
  | (_, some e) => .error e
  | (f1, none) => calc_props env f1 target_props

end Fluid

/-- A primary backend that always fails (claims about the reference
backend and the registries never flash). -/
def physNone : Physics :=
  { flash := fun _ _ => .error (.valueError "no flash available")
    flashG := fun _ _ _ => .error (.valueError "no flash available") }

/-- A reference backend that answers 7 to the request label `VIS` and 99
to any other request label: the output observed by the caller reveals
which request label `_calc_prop_rp` actually sent. -/
def rpProbe : String → ℚ → ℚ → RpResult :=
  fun label _ _ => if label = "VIS" then ⟨[7], 0, ""⟩ else ⟨[99], 0, ""⟩

/-- A reference backend that reports error code 101 with its own error
text. -/
def rpBoom : String → ℚ → ℚ → RpResult :=
  fun _ _ _ => ⟨[7], 101, "[SETUP error 101] boom"⟩

def envRpProbe : Env :=
  { phys := physNone, store := defaultStore, handlers := [],
    rp := rpProbe, normF := none }

def envRpBoom : Env :=
  { phys := physNone, store := defaultStore, handlers := [],
    rp := rpBoom, normF := none }

/-- A fluid with one converged state on the backend handle, as needed for
the `(T, D)` arguments of a `REFPROPdll` call. -/
def fluidRpProbe : FluidState :=
  { FluidState.init with
      backend := { spec := iphase_not_imposed,
                   cur := some { keyed := [(iT, 300), (iDmolar, 10)],
                                 phaseIdx := none } } }

/-- C3: for every property request dispatched to the reference backend the
claim says the request label is the property label plus the 1-based output
index when present.  The code composes
`prop.rp_label + str(out_index + 1) if out_index else ""`, where the
conditional expression governs the whole concatenation: with no output
index (and likewise with output index 0) the label actually sent is the
empty string, not the property label — the 7/99 probe backend observes the
empty request label.  The error-code half of the claim does hold: code 101
fails carrying the backend error text. -/
theorem calc_prop_rp_label_bug :
    Fluid.rp_request_label "VIS" none = "" ∧
    Fluid.rp_request_label "VIS" (some 0) = "" ∧
    Fluid.rp_request_label "VIS" (some 1) = "VIS2" ∧
    Fluid.calc_prop_rp envRpProbe fluidRpProbe propVIS none = .ok (.num 99) ∧
    Fluid.calc_prop_rp envRpBoom fluidRpProbe propVIS none =
      .error (.valueError "[SETUP error 101] boom") := by
  refine ⟨rfl, rfl, rfl, ?_, ?_⟩ <;> decide

/-- Failure-kind discriminators for `parse_property_string` (the source
raises `ValueError` in both cases, distinguished by the message). -/
def formatFailure (e : Err) : Bool :=
  match e with
  | .valueError m => Fluid.prefixMatch "Invalid property string format".data m.data
  | _ => false

def lookupFailure (e : Err) : Bool :=
  match e with
  | .valueError m => Fluid.prefixMatch "Propriedade não encontrada".data m.data
  | _ => false

/-- C5 counterexample: the claim says `"1T"` fails with a format failure,
but `1T` matches the grammar (the base class `[A-Z0-9_]+` admits leading
digits), so the parser reaches the registry lookup and fails with the
lookup failure instead. -/
theorem parse_digit_base_counterexample :
    parse_property_string defaultStore "1T" =
      .error (.valueError "Propriedade não encontrada: 1T") ∧
    lookupFailure (.valueError "Propriedade não encontrada: 1T") = true ∧
    formatFailure (.valueError "Propriedade não encontrada: 1T") = false := by
  refine ⟨?_, ?_, ?_⟩ <;> decide

/-- C5 (amended): the parser accepts exactly the grammar
`BASE`, `BASE(INDEX)`, `BASE*`, `BASE(INDEX)*` case-insensitively;
`"T"`, `"VIS(1)"`, `"P*"`, `"TCX(2)*"` parse, `"T**"` and `"(T)"` fail
with a format failure, and `"ZZZ"` and `"1T"` fail with a lookup failure
(the base class `[A-Z0-9_]+` admits leading digits, so `"1T"` is
well-formed but unregistered).  Case-insensitivity: parsing a string and
parsing its uppercased form accept the same requests. -/
theorem parse_property_string_grammar :
    parse_property_string defaultStore "T" = .ok (propT, none, false) ∧
    parse_property_string defaultStore "VIS(1)" = .ok (propVIS, some 1, false) ∧
    parse_property_string defaultStore "P*" = .ok (propP, none, true) ∧
    parse_property_string defaultStore "TCX(2)*" = .ok (propTCX, some 2, true) ∧
    (∃ e, parse_property_string defaultStore "T**" = .error e ∧
      formatFailure e = true) ∧
    (∃ e, parse_property_string defaultStore "(T)" = .error e ∧
      formatFailure e = true) ∧
    (∃ e, parse_property_string defaultStore "ZZZ" = .error e ∧
      lookupFailure e = true) ∧
    (∃ e, parse_property_string defaultStore "1T" = .error e ∧
      lookupFailure e = true) ∧
    (∀ s, (parse_property_string defaultStore s).toOption =
      (parse_property_string defaultStore (pyUpper s)).toOption) := by
  refine ⟨by decide, by decide, by decide, by decide,
    ⟨.valueError "Invalid property string format: T**", by decide, by decide⟩,
    ⟨.valueError "Invalid property string format: (T)", by decide, by decide⟩,
    ⟨.valueError "Propriedade não encontrada: ZZZ", by decide, by decide⟩,
    ⟨.valueError "Propriedade não encontrada: 1T", by decide, by decide⟩, ?_⟩
  intro s
  unfold parse_property_string
  rw [pyUpper_idem]
  cases h : matchPropertyRegex (pyUpper s).data with
  | none => rfl
  | some x =>
      obtain ⟨base, idx, norm⟩ := x
      cases hg : Registry.get defaultStore (pyUpper base) <;>
        simp [hg, Except.toOption]

/-- C2 counterexample: at `T_r = P_r = 1.005` both reduced coordinates are
within the claimed ±1% tolerance of 1, so the claim requires the critical
point; the code, however, tests `np.isclose` with its defaults
(`atol = 1e-8`, `rtol = 1e-5`), which rejects 1.005, and the classifier
returns supercritical. -/
theorem calc_phase_manual_tolerance_counterexample :
    Fluid.calc_phase_manual defaultStore (1/2) (201/200) (201/200) =
      .ok scPhase ∧
    Fluid.ratAbs ((201 : ℚ)/200 - 1) ≤ 1/100 ∧
    scPhase ≠ criticalPointPhase := by
  refine ⟨?_, ?_, ?_⟩ <;> with_unfolding_all decide

/-- C2 (amended): for a converged state classified manually, the phase is
decided by this precedence over `(Q, P_r, T_r)` — critical point when
`T_r` and `P_r` are both `np.isclose` to 1 (NumPy defaults
`|x - 1| ≤ 1e-8 + 1e-5`, not the ±1% of the original claim), then
supercritical (`T_r ≥ 1 ∧ P_r ≥ 1`), supercritical gas
(`T_r > 1 ∧ P_r < 1`), supercritical liquid (`T_r < 1 ∧ P_r > 1`), gas
(`Q > 1`), liquid (`Q < 0`), two-phase (`0 ≤ Q ≤ 1`); over the rationals
these guards are exhaustive, so the classifier always returns a phase and
the fatal-inference branch is unreachable. -/
theorem calc_phase_manual_decision_table (Q P_r T_r : ℚ) :
    ((Fluid.np_isclose T_r 1 && Fluid.np_isclose P_r 1) = true →
      Fluid.calc_phase_manual defaultStore Q P_r T_r = .ok criticalPointPhase) ∧
    ((Fluid.np_isclose T_r 1 && Fluid.np_isclose P_r 1) = false →
      T_r ≥ 1 → P_r ≥ 1 →
      Fluid.calc_phase_manual defaultStore Q P_r T_r = .ok scPhase) ∧
    ((Fluid.np_isclose T_r 1 && Fluid.np_isclose P_r 1) = false →
      T_r > 1 → P_r < 1 →
      Fluid.calc_phase_manual defaultStore Q P_r T_r = .ok scGasPhase) ∧
    ((Fluid.np_isclose T_r 1 && Fluid.np_isclose P_r 1) = false →
      T_r < 1 → P_r > 1 →
      Fluid.calc_phase_manual defaultStore Q P_r T_r = .ok scLiquidPhase) ∧
    ((Fluid.np_isclose T_r 1 && Fluid.np_isclose P_r 1) = false →
      ¬(T_r ≥ 1 ∧ P_r ≥ 1) → ¬(T_r > 1 ∧ P_r < 1) → ¬(T_r < 1 ∧ P_r > 1) →
      Q > 1 →
      Fluid.calc_phase_manual defaultStore Q P_r T_r = .ok gasPhase) ∧
    ((Fluid.np_isclose T_r 1 && Fluid.np_isclose P_r 1) = false →
      ¬(T_r ≥ 1 ∧ P_r ≥ 1) → ¬(T_r > 1 ∧ P_r < 1) → ¬(T_r < 1 ∧ P_r > 1) →
      Q < 0 →
      Fluid.calc_phase_manual defaultStore Q P_r T_r = .ok liquidPhase) ∧
    ((Fluid.np_isclose T_r 1 && Fluid.np_isclose P_r 1) = false →
      ¬(T_r ≥ 1 ∧ P_r ≥ 1) → ¬(T_r > 1 ∧ P_r < 1) → ¬(T_r < 1 ∧ P_r > 1) →
      0 ≤ Q → Q ≤ 1 →
      Fluid.calc_phase_manual defaultStore Q P_r T_r = .ok twophasePhase) ∧
    (∃ ph, Fluid.calc_phase_manual defaultStore Q P_r T_r = .ok ph) := by
  refine ⟨?_, ?_, ?_, ?_, ?_, ?_, ?_, ?_⟩
  · intro h1
    simp only [Fluid.calc_phase_manual, h1, if_true]
    decide
  · intro h1 h2 h3
    simp only [Fluid.calc_phase_manual, h1, Bool.false_eq_true, if_false]
    rw [if_pos (⟨h2, h3⟩ : T_r ≥ 1 ∧ P_r ≥ 1)]
    decide
  · intro h1 hg hl
    have hn2 : ¬(T_r ≥ 1 ∧ P_r ≥ 1) := fun hc => absurd hc.2 (not_le.mpr hl)
    simp only [Fluid.calc_phase_manual, h1, Bool.false_eq_true, if_false]
    rw [if_neg hn2, if_pos (⟨hg, hl⟩ : T_r > 1 ∧ P_r < 1)]
    decide
  · intro h1 ht hp
    have hn2 : ¬(T_r ≥ 1 ∧ P_r ≥ 1) := fun hc => absurd hc.1 (not_le.mpr ht)
    have hn3 : ¬(T_r > 1 ∧ P_r < 1) := fun hc => absurd hc.1 (by linarith)
    simp only [Fluid.calc_phase_manual, h1, Bool.false_eq_true, if_false]
    rw [if_neg hn2, if_neg hn3, if_pos (⟨ht, hp⟩ : T_r < 1 ∧ P_r > 1)]
    decide
  · intro h1 hn2 hn3 hn4 hq
    simp only [Fluid.calc_phase_manual, h1, Bool.false_eq_true, if_false]
    rw [if_neg hn2, if_neg hn3, if_neg hn4, if_pos hq]
    decide
  · intro h1 hn2 hn3 hn4 hq
    have hng : ¬(Q > 1) := by linarith
    simp only [Fluid.calc_phase_manual, h1, Bool.false_eq_true, if_false]
    rw [if_neg hn2, if_neg hn3, if_neg hn4, if_neg hng, if_pos hq]
    decide
  · intro h1 hn2 hn3 hn4 hq0 hq1
    have hng : ¬(Q > 1) := by linarith
    have hnl : ¬(Q < 0) := by linarith
    simp only [Fluid.calc_phase_manual, h1, Bool.false_eq_true, if_false]
    rw [if_neg hn2, if_neg hn3, if_neg hn4, if_neg hng, if_neg hnl,
      if_pos (⟨hq0, hq1⟩ : 0 ≤ Q ∧ Q ≤ 1)]
    decide
  · unfold Fluid.calc_phase_manual
    split_ifs with a b c d e f g
    · exact ⟨criticalPointPhase, by decide⟩
    · exact ⟨scPhase, by decide⟩
    · exact ⟨scGasPhase, by decide⟩
    · exact ⟨scLiquidPhase, by decide⟩
    · exact ⟨gasPhase, by decide⟩
    · exact ⟨liquidPhase, by decide⟩
    · exact ⟨twophasePhase, by decide⟩
    · exact absurd ⟨le_of_not_lt f, le_of_not_lt e⟩ g

/-- Boundary evaluations of the decision table, instantiating
`calc_phase_manual_decision_table` at the example points of the
specification (`T_r = P_r = 1` gives the critical point;
`T_r = 1.2, P_r = 0.8` supercritical gas; `Q = 1.5` gas; `Q = -0.2`
liquid; `Q = 0.5` two-phase). -/
theorem calc_phase_manual_decision_table_witness :
    Fluid.calc_phase_manual defaultStore (1/2) 1 1 = .ok criticalPointPhase ∧
    Fluid.calc_phase_manual defaultStore (1/2) (8/10) (12/10) = .ok scGasPhase ∧
    Fluid.calc_phase_manual defaultStore (3/2) (1/2) (1/2) = .ok gasPhase ∧
    Fluid.calc_phase_manual defaultStore (-(2/10)) (1/2) (1/2) = .ok liquidPhase ∧
    Fluid.calc_phase_manual defaultStore (1/2) (1/2) (1/2) = .ok twophasePhase := by
  refine ⟨?_, ?_, ?_, ?_, ?_⟩
  · exact (calc_phase_manual_decision_table (1/2) 1 1).1
      (by with_unfolding_all decide)
  · exact (calc_phase_manual_decision_table (1/2) (8/10) (12/10)).2.2.1
      (by with_unfolding_all decide) (by norm_num) (by norm_num)
  · exact (calc_phase_manual_decision_table (3/2) (1/2) (1/2)).2.2.2.2.1
      (by with_unfolding_all decide) (by norm_num) (by norm_num) (by norm_num)
      (by norm_num)
  · exact (calc_phase_manual_decision_table (-(2/10)) (1/2) (1/2)).2.2.2.2.2.1
      (by with_unfolding_all decide) (by norm_num) (by norm_num) (by norm_num)
      (by norm_num)
  · exact (calc_phase_manual_decision_table (1/2) (1/2) (1/2)).2.2.2.2.2.2.1
      (by with_unfolding_all decide) (by norm_num) (by norm_num) (by norm_num)
      (by norm_num) (by norm_num)

/-- An item served only by the reference backend, and one served by no
strategy at all. -/
def itemRpOnly : Item := { key := "ZZJ", rp_label := some "ZZJ" }

def itemNoStrategy : Item := { key := "NOPE" }

/-- Environment for dispatcher evaluations: the default registry extended
with an item that no strategy serves. -/
def envC4 : Env :=
  { phys := physNone, store := defaultStore ++ [("NOPE", itemNoStrategy)],
    handlers := Fluid.defaultHandlers, rp := rpProbe, normF := none }

/-- C4: `_calc_prop` selects exactly one strategy with the precedence
user handler, then primary backend (`cp_index` present), then reference
backend (`rp_label` present), and an unresolvable request makes the whole
property calculation fail with the unsupported-property error. -/
theorem calc_prop_strategy_precedence (env : Env) (it : Item) :
    ((env.handlers.lookup it.key).isSome = true →
      Fluid.selectStrategy env it = .ok .hd) ∧
    ((env.handlers.lookup it.key).isSome = false → it.cp_index.isSome = true →
      Fluid.selectStrategy env it = .ok .cp) ∧
    ((env.handlers.lookup it.key).isSome = false → it.cp_index.isSome = false →
      it.rp_label.isSome = true → Fluid.selectStrategy env it = .ok .rp) ∧
    ((env.handlers.lookup it.key).isSome = false → it.cp_index.isSome = false →
      it.rp_label.isSome = false →
      Fluid.selectStrategy env it =
        .error (.valueError
          ("Não foi possível calcular a propriedade " ++ it.key ++ "."))) ∧
    (∀ f s oi normalized e,
      parse_property_string env.store s = .ok (it, oi, normalized) →
      Fluid.selectStrategy env it = .error e →
      Fluid.calc_prop env f s = .error e) := by
  refine ⟨?_, ?_, ?_, ?_, ?_⟩
  · intro h1
    simp only [Fluid.selectStrategy, h1, if_true]
  · intro h1 h2
    simp only [Fluid.selectStrategy, h1, h2, Bool.false_eq_true, if_false,
      if_true]
  · intro h1 h2 h3
    simp only [Fluid.selectStrategy, h1, h2, h3, Bool.false_eq_true, if_false,
      if_true]
  · intro h1 h2 h3
    simp only [Fluid.selectStrategy, h1, h2, h3, Bool.false_eq_true, if_false]
  · intro f s oi normalized e hparse hsel
    simp only [Fluid.calc_prop, hparse, hsel]

/-- Concrete dispatches instantiating `calc_prop_strategy_precedence`:
`PHASE` has a user handler, `T` falls to the primary backend, an
`rp_label`-only item falls to the reference backend, and the unservable
item `NOPE` fails the whole request with the unsupported-property error. -/
theorem calc_prop_strategy_precedence_witness :
    Fluid.selectStrategy envC4 propPHASE = .ok .hd ∧
    Fluid.selectStrategy envC4 propT = .ok .cp ∧
    Fluid.selectStrategy envC4 itemRpOnly = .ok .rp ∧
    Fluid.calc_prop envC4 FluidState.init "NOPE" =
      .error (.valueError "Não foi possível calcular a propriedade NOPE.") := by
  refine ⟨?_, ?_, ?_, ?_⟩
  · exact (calc_prop_strategy_precedence envC4 propPHASE).1 (by decide)
  · exact (calc_prop_strategy_precedence envC4 propT).2.1 (by decide) (by decide)
  · exact (calc_prop_strategy_precedence envC4 itemRpOnly).2.2.1 (by decide)
      (by decide) (by decide)
  · exact (calc_prop_strategy_precedence envC4 itemNoStrategy).2.2.2.2
      FluidState.init "NOPE" none false _ (by decide)
      ((calc_prop_strategy_precedence envC4 itemNoStrategy).2.2.2.1 (by decide)
        (by decide) (by decide))

/-- A registry store is well formed when every entry is stored under the
uppercased key of its item, as `register` guarantees. -/
def RegWF (st : RegState) : Prop := ∀ kv ∈ st, kv.1 = pyUpper kv.2.key

theorem lookup_mem {st : RegState} {k : String} {it : Item}
    (h : st.lookup k = some it) : (k, it) ∈ st := by
  induction st with
  | nil => cases h
  | cons kv rest ih =>
      obtain ⟨a, b⟩ := kv
      by_cases hb : k = a
      · subst hb
        simp only [List.lookup, beq_self_eq_true] at h
        cases h
        exact List.mem_cons_self _ _
      · have hbeq : (k == a) = false := beq_eq_false_iff_ne.mpr hb
        simp only [List.lookup, hbeq] at h
        exact List.mem_cons_of_mem _ (ih h)

theorem lookup_append_of_none {st : RegState} {k : String}
    (h : st.lookup k = none) (l2 : RegState) :
    (st ++ l2).lookup k = l2.lookup k := by
  induction st with
  | nil => rfl
  | cons kv rest ih =>
      obtain ⟨a, b⟩ := kv
      by_cases hb : k = a
      · subst hb
        simp only [List.lookup, beq_self_eq_true] at h
        cases h
      · have hbeq : (k == a) = false := beq_eq_false_iff_ne.mpr hb
        simp only [List.lookup, hbeq] at h
        simp only [List.cons_append, List.lookup, hbeq]
        exact ih h

theorem lookup_append_of_some {st : RegState} {k : String} {it : Item}
    (h : st.lookup k = some it) (l2 : RegState) :
    (st ++ l2).lookup k = some it := by
  induction st with
  | nil => cases h
  | cons kv rest ih =>
      obtain ⟨a, b⟩ := kv
      by_cases hb : k = a
      · subst hb
        simp only [List.lookup, beq_self_eq_true] at h ⊢
        exact h
      · have hbeq : (k == a) = false := beq_eq_false_iff_ne.mpr hb
        simp only [List.lookup, hbeq] at h
        simp only [List.cons_append, List.lookup, hbeq]
        exact ih h

/-- C10: the `Registry` operation contract shared by the property and
phase registries — `register` fails on a case-insensitively duplicate key
and otherwise appends exactly the given item (leaving every other key
untouched and preserving well-formedness); `get` is case-insensitive,
idempotent (re-getting a returned item by its own key yields the same
item), and fails with the key error when the key is absent; and `get_many`
is the pointwise lift of `get`. -/
theorem registry_contract :
    (∀ st item, (st.lookup (pyUpper item.key)).isSome = true →
      Registry.register st item =
        .error (.valueError (item.key ++ " já está registrado."))) ∧
    (∀ st item, (st.lookup (pyUpper item.key)).isSome = false →
      Registry.register st item = .ok (st ++ [(pyUpper item.key, item)]) ∧
      Registry.get (st ++ [(pyUpper item.key, item)]) item.key = .ok item ∧
      (∀ k, pyUpper k ≠ pyUpper item.key →
        Registry.get (st ++ [(pyUpper item.key, item)]) k = Registry.get st k)) ∧
    (∀ st k, (Registry.get st k).toOption = (Registry.get st (pyUpper k)).toOption) ∧
    (∀ st k it, Registry.get st k = .ok it →
      Registry.get st (pyUpper k) = .ok it) ∧
    (∀ st k it, RegWF st → Registry.get st k = .ok it →
      Registry.get st it.key = .ok it) ∧
    (∀ st k, (st.lookup (pyUpper k)).isSome = false →
      Registry.get st k = .error (.keyError (k ++ " não encontrado no registro."))) ∧
    (∀ st keys its, Registry.get_many st keys = .ok its ↔
      List.Forall₂ (fun k it => Registry.get st k = .ok it) keys its) ∧
    (∀ st item st2, RegWF st → Registry.register st item = .ok st2 →
      RegWF st2) := by
  refine ⟨?_, ?_, ?_, ?_, ?_, ?_, ?_, ?_⟩
  · intro st item h
    simp only [Registry.register, h, if_true]
  · intro st item h
    cases hl : st.lookup (pyUpper item.key) with
    | some v => rw [hl] at h; cases h
    | none =>
        refine ⟨?_, ?_, ?_⟩
        · simp only [Registry.register, hl, Option.isSome_none,
            Bool.false_eq_true, if_false]
        · unfold Registry.get
          rw [lookup_append_of_none hl]
          simp [List.lookup]
        · intro k hk
          unfold Registry.get
          cases hl2 : st.lookup (pyUpper k) with
          | some v => rw [lookup_append_of_some hl2]
          | none =>
              rw [lookup_append_of_none hl2]
              have : (pyUpper k == pyUpper item.key) = false :=
                beq_eq_false_iff_ne.mpr hk
              simp [List.lookup, this]
  · intro st k
    unfold Registry.get
    rw [pyUpper_idem]
    cases hl : st.lookup (pyUpper k) <;> simp [Except.toOption]
  · intro st k it hget
    unfold Registry.get at hget ⊢
    rw [pyUpper_idem]
    cases hl : st.lookup (pyUpper k) with
    | some v => rw [hl] at hget; cases hget; rfl
    | none => rw [hl] at hget; cases hget
  · intro st k it hwf hget
    unfold Registry.get at hget ⊢
    cases hl : st.lookup (pyUpper k) with
    | some v =>
        rw [hl] at hget
        cases hget
        have hkey : pyUpper k = pyUpper it.key := hwf _ (lookup_mem hl)
        rw [← hkey, hl]
    | none => rw [hl] at hget; cases hget
  · intro st k h
    unfold Registry.get
    cases hl : st.lookup (pyUpper k) with
    | some v => rw [hl] at h; cases h
    | none => rfl
  · intro st keys
    induction keys with
    | nil =>
        intro its
        constructor
        · intro h
          cases h
          exact List.Forall₂.nil
        · intro h
          cases h
          rfl
    | cons k ks ih =>
        intro its
        constructor
        · intro h
          unfold Registry.get_many at h
          cases hk : Registry.get st k with
          | error e => rw [hk] at h; cases h
          | ok v =>
              rw [hk] at h
              cases hm : Registry.get_many st ks with
              | error e => rw [hm] at h; cases h
              | ok vs =>
                  rw [hm] at h
                  cases h
                  exact List.Forall₂.cons hk ((ih vs).mp hm)
        · intro h
          cases h with
          | cons hk htail =>
              unfold Registry.get_many
              rw [hk, (ih _).mpr htail]
  · intro st item st2 hwf hreg
    unfold Registry.register at hreg
    by_cases hdup : (st.lookup (pyUpper item.key)).isSome = true
    · rw [if_pos hdup] at hreg
      cases hreg
    · rw [if_neg hdup] at hreg
      cases hreg
      intro kv hkv
      rcases List.mem_append.mp hkv with hin | hin
      · exact hwf kv hin
      · rcases List.mem_singleton.mp hin with rfl
        rfl

def itemFoo : Item := { key := "foo", name := some "foo item" }

def itemFooDup : Item := { key := "Foo", name := some "duplicate" }

def itemBar : Item := { key := "bar" }

def stW : RegState := [("FOO", itemFoo)]

/-- Concrete registry runs instantiating `registry_contract`: a
case-insensitive duplicate registration fails, a fresh registration adds
exactly the item, `get` resolves `foo`/`FOO`/the stored key to the same
item, an absent key fails, and `get_many` lifts `get` pointwise. -/
theorem registry_contract_witness :
    Registry.register stW itemFooDup =
      .error (.valueError "Foo já está registrado.") ∧
    Registry.register stW itemBar = .ok (stW ++ [("BAR", itemBar)]) ∧
    Registry.get (stW ++ [("BAR", itemBar)]) "bar" = .ok itemBar ∧
    Registry.get stW "foo" = .ok itemFoo ∧
    Registry.get stW "FOO" = .ok itemFoo ∧
    Registry.get stW itemFoo.key = .ok itemFoo ∧
    Registry.get stW "BAR" =
      .error (.keyError "BAR não encontrado no registro.") ∧
    List.Forall₂ (fun k it => Registry.get stW k = .ok it)
      ["foo", "FOO"] [itemFoo, itemFoo] ∧
    RegWF (stW ++ [("BAR", itemBar)]) := by
  have hwf : RegWF stW := by
    intro kv hkv
    rcases List.mem_singleton.mp hkv with rfl
    decide
  refine ⟨?_, ?_, ?_, ?_, ?_, ?_, ?_, ?_, ?_⟩
  · exact registry_contract.1 stW itemFooDup (by decide)
  · exact (registry_contract.2.1 stW itemBar (by decide)).1
  · exact (registry_contract.2.1 stW itemBar (by decide)).2.1
  · decide
  · exact registry_contract.2.2.2.1 stW "foo" itemFoo (by decide)
  · exact registry_contract.2.2.2.2.1 stW "foo" itemFoo hwf (by decide)
  · exact registry_contract.2.2.2.2.2.1 stW "BAR" (by decide)
  · exact (registry_contract.2.2.2.2.2.2.1 stW ["foo", "FOO"]
      [itemFoo, itemFoo]).mp (by decide)
  · exact registry_contract.2.2.2.2.2.2.2 stW itemBar (stW ++ [("BAR", itemBar)])
      hwf (by decide)

/-- A fluid whose converged state reports viscosity 0, registered as its
own normalization fluid. -/
def fluidC6 : FluidState :=
  { FluidState.init with
      backend := { spec := iphase_not_imposed,
                   cur := some { keyed := [(iviscosity, 0)], phaseIdx := none } } }

def envC6 : Env :=
  { phys := physNone, store := defaultStore, handlers := Fluid.defaultHandlers,
    rp := rpProbe, normF := some fluidC6 }

/-- C6 counterexample: `VIS` is supported on the normalizing fluid (the
primary-backend strategy serves it), but its raw value there is 0, so
evaluating `VIS*` on the normalizing fluid itself divides 0 by 0 and
raises `ZeroDivisionError` — it does not yield 1.0 as the claim states
for every supported property key. -/
theorem calc_prop_normalization_zero_counterexample :
    Fluid.calc_prop envC6 fluidC6 "VIS*" = .error .zeroDivisionError ∧
    Fluid.calc_prop envC6 fluidC6 "VIS*" ≠ .ok (.num 1) := by
  constructor <;> with_unfolding_all decide

theorem np_round_one (d : Nat) : Fluid.np_round d 1 = 1 := by
  have hcast : ((10 : ℚ))^d = ((10^d : ℤ) : ℚ) := by push_cast; ring
  unfold Fluid.np_round Fluid.roundHalfEven
  simp only [one_mul, hcast, Int.floor_intCast, sub_self]
  rw [if_pos (by norm_num : (0 : ℚ) < 1/2)]
  exact div_self (Int.cast_ne_zero.mpr (pow_ne_zero d (by norm_num)))

/-- C6 (amended): a `*`-flagged request evaluated on the normalizing fluid
itself yields exactly 1.0 (whatever rounding precision is configured),
provided the raw value of the strategy on that fluid is a nonzero scalar;
a zero raw value instead raises the division failure. -/
theorem calc_prop_normalization_unit (env : Env) (f : FluidState) (s : String)
    (it : Item) (oi : Option Nat) (strat : Fluid.Strategy) (v : ℚ)
    (hnorm : env.normF = some f)
    (hparse : parse_property_string env.store s = .ok (it, oi, true))
    (hsel : Fluid.selectStrategy env it = .ok strat)
    (hrun : Fluid.runStrategy env strat f it oi = .ok (.num v))
    (hv : v ≠ 0) :
    Fluid.calc_prop env f s = .ok (.num 1) := by
  simp only [Fluid.calc_prop, hparse, hsel, hrun, Fluid.normalizeStep, if_true,
    Fluid.get_normalizing_fluid, hnorm, Fluid.pvalDiv, Fluid.pyDiv, hv,
    if_false, div_self hv]
  cases hrd : f.round_decimals with
  | none => simp [Fluid.roundStep, hrd]
  | some d => simp [Fluid.roundStep, hrd, np_round_one]

/-- A normalizing fluid with nonzero viscosity. -/
def fluidC6w : FluidState :=
  { FluidState.init with
      backend := { spec := iphase_not_imposed,
                   cur := some { keyed := [(iviscosity, 5)], phaseIdx := none } } }

def envC6w : Env :=
  { phys := physNone, store := defaultStore, handlers := Fluid.defaultHandlers,
    rp := rpProbe, normF := some fluidC6w }

theorem calc_prop_normalization_unit_witness :
    Fluid.calc_prop envC6w fluidC6w "VIS*" = .ok (.num 1) :=
  calc_prop_normalization_unit envC6w fluidC6w "VIS*" propVIS none .cp 5
    rfl (by decide) (by decide) (by with_unfolding_all decide) (by norm_num)

namespace Fluid

/-- `_calc_phase` never touches the phase-imposed flag, the stored
`(T, P, D)` triple, or the rounding precision, whatever path it takes. -/
theorem calc_phase_frame (env : Env) (f : FluidState) :
    ((calc_phase env f).1).phase_imposed = f.phase_imposed ∧
    ((calc_phase env f).1).T = f.T ∧
    ((calc_phase env f).1).P = f.P ∧
    ((calc_phase env f).1).D = f.D ∧
    ((calc_phase env f).1).round_decimals = f.round_decimals := by
  unfold calc_phase
  repeat' split
  all_goals exact ⟨rfl, rfl, rfl, rfl, rfl⟩

/-- `specify_phase` on success: records the phase, imposes its backend
index, sets the flag only when `impose` is true, and touches nothing
else. -/
theorem specify_phase_ok_frame (env : Env) (f : FluidState) (k : String)
    (imp : Bool) (f2 : FluidState) (ph : Item) (i : Nat)
    (hget : Registry.get env.store k = .ok ph)
    (hidx : ph.cp_index = some i)
    (h : specify_phase env f k imp = (f2, none)) :
    f2.phase = some ph ∧
    f2.phase_imposed = (f.phase_imposed || imp) ∧
    f2.T = f.T ∧ f2.P = f.P ∧ f2.D = f.D ∧
    f2.round_decimals = f.round_decimals ∧
    f2.backend.spec = i ∧ f2.backend.cur = f.backend.cur := by
  unfold specify_phase at h
  simp only [hget, hidx] at h
  cases imp with
  | false =>
      simp only [Bool.false_eq_true, if_false] at h
      cases h
      simp
  | true =>
      simp only [if_pos rfl] at h
      cases h
      simp

/-- `specify_phase` never clears the flag: in every outcome the flag is
the old flag or-ed with `impose`, and on the failure paths it is exactly
the old flag. -/
theorem specify_phase_imposed_mono (env : Env) (f : FluidState) (k : String)
    (imp : Bool) :
    (((specify_phase env f k imp).1).phase_imposed = f.phase_imposed ∨
      ((specify_phase env f k imp).1).phase_imposed = true) ∧
    ((specify_phase env f k imp).2 ≠ none →
      ((specify_phase env f k imp).1).phase_imposed = f.phase_imposed) := by
  unfold specify_phase
  repeat' split
  all_goals simp

/-- Each residual evaluation of the fallback root search changes only the
backend's converged-state snapshot. -/
theorem residual_frame (env : Env) (i1 : Nat) (v1 : ℚ) (i2 : Nat) (v2 : ℚ)
    (q : ℚ) (f : FluidState) :
    ((residual env i1 v1 i2 v2 q f).1).phase = f.phase ∧
    ((residual env i1 v1 i2 v2 q f).1).phase_imposed = f.phase_imposed ∧
    ((residual env i1 v1 i2 v2 q f).1).T = f.T ∧
    ((residual env i1 v1 i2 v2 q f).1).P = f.P ∧
    ((residual env i1 v1 i2 v2 q f).1).D = f.D ∧
    ((residual env i1 v1 i2 v2 q f).1).round_decimals = f.round_decimals ∧
    ((residual env i1 v1 i2 v2 q f).1).backend.spec = f.backend.spec := by
  unfold residual
  repeat' split
  all_goals exact ⟨rfl, rfl, rfl, rfl, rfl, rfl, rfl⟩

/-- States that differ at most in the backend snapshot. -/
def sameButCur (f g : FluidState) : Prop :=
  g.phase = f.phase ∧ g.phase_imposed = f.phase_imposed ∧
  g.T = f.T ∧ g.P = f.P ∧ g.D = f.D ∧
  g.round_decimals = f.round_decimals ∧ g.backend.spec = f.backend.spec

theorem sameButCur_refl (f : FluidState) : sameButCur f f :=
  ⟨rfl, rfl, rfl, rfl, rfl, rfl, rfl⟩

theorem sameButCur_trans {f g h : FluidState} (h1 : sameButCur f g)
    (h2 : sameButCur g h) : sameButCur f h := by
  obtain ⟨a1, a2, a3, a4, a5, a6, a7⟩ := h1
  obtain ⟨b1, b2, b3, b4, b5, b6, b7⟩ := h2
  exact ⟨b1.trans a1, b2.trans a2, b3.trans a3, b4.trans a4, b5.trans a5,
    b6.trans a6, b7.trans a7⟩

theorem residual_sameButCur (env : Env) (i1 : Nat) (v1 : ℚ) (i2 : Nat)
    (v2 : ℚ) (q : ℚ) (f : FluidState) :
    sameButCur f ((residual env i1 v1 i2 v2 q f).1) :=
  residual_frame env i1 v1 i2 v2 q f

/-- The fallback bisection changes only the backend snapshot of the fluid
state (it is a sequence of residual evaluations). -/
theorem brentqLoop_sameButCur (env : Env) (i1 : Nat) (v1 : ℚ) (i2 : Nat)
    (v2 : ℚ) (tol : ℚ) (fuel : Nat) :
    ∀ a b fa f,
      sameButCur f ((brentqLoop (residual env i1 v1 i2 v2) tol fuel a b fa f).1) := by
  induction fuel with
  | zero =>
      intro a b fa f
      exact sameButCur_refl f
  | succ n ih =>
      intro a b fa f
      unfold brentqLoop
      split
      case _ f1 e hg =>
        have := residual_sameButCur env i1 v1 i2 v2 ((a + b) / 2) f
        rw [hg] at this
        exact this
      case _ f1 fm hg =>
        have hfr : sameButCur f f1 := by
          have := residual_sameButCur env i1 v1 i2 v2 ((a + b) / 2) f
          rw [hg] at this
          exact this
        by_cases htol : ratAbs fm ≤ tol
        · simp only [if_pos htol]
          exact hfr
        · simp only [if_neg htol]
          by_cases hsign : fa * fm ≤ 0
          · simp only [if_pos hsign]
            exact sameButCur_trans hfr (ih a ((a + b) / 2) fa f1)
          · simp only [if_neg hsign]
            exact sameButCur_trans hfr (ih ((a + b) / 2) b fm f1)

theorem brentq_sameButCur (env : Env) (i1 : Nat) (v1 : ℚ) (i2 : Nat)
    (v2 : ℚ) (a b tol : ℚ) (f : FluidState) :
    sameButCur f ((brentq (residual env i1 v1 i2 v2) a b tol f).1) := by
  unfold brentq
  split
  case _ f1 e hga =>
    have := residual_sameButCur env i1 v1 i2 v2 a f
    rw [hga] at this
    exact this
  case _ f1 fa hga =>
    have hfr1 : sameButCur f f1 := by
      have := residual_sameButCur env i1 v1 i2 v2 a f
      rw [hga] at this
      exact this
    split
    case _ f2 e hgb =>
      have := residual_sameButCur env i1 v1 i2 v2 b f1
      rw [hgb] at this
      exact sameButCur_trans hfr1 this
    case _ f2 fb hgb =>
      have hfr2 : sameButCur f f2 := by
        have := residual_sameButCur env i1 v1 i2 v2 b f1
        rw [hgb] at this
        exact sameButCur_trans hfr1 this
      by_cases hs : fa * fb > 0
      · simp only [if_pos hs]
        exact hfr2
      · simp only [if_neg hs]
        exact sameButCur_trans hfr2
          (brentqLoop_sameButCur env i1 v1 i2 v2 tol brentqFuel a b fa f2)

/-- `finalize` touches only the stored `(T, P, D)` triple. -/
theorem finalize_frame (f : FluidState) :
    ((finalize f).1).phase = f.phase ∧
    ((finalize f).1).phase_imposed = f.phase_imposed ∧
    ((finalize f).1).round_decimals = f.round_decimals ∧
    ((finalize f).1).backend = f.backend := by
  unfold finalize
  repeat' split
  all_goals exact ⟨rfl, rfl, rfl, rfl⟩

end Fluid

namespace Fluid

/-- `set_state` when the flash fails with a `ValueError` whose message
does not signal two-phase non-convergence: the error is re-raised
unmodified and the fluid state is untouched. -/
theorem set_state_reraise (env : Env) (f : FluidState) (s1 s2 : String)
    (vals : ℚ × ℚ) (ug : Bool) (p1 p2 : Item) (oi1 oi2 : Option Nat)
    (n1 n2 : Bool) (i1 i2 : Nat) (v1 v2 : ℚ) (msg : String)
    (hp1 : parse_property_string env.store s1 = .ok (p1, oi1, n1))
    (hp2 : parse_property_string env.store s2 = .ok (p2, oi2, n2))
    (hres : resolveVals env p1 n1 p2 n2 vals.1 vals.2 = .ok (v1, v2))
    (hi1 : p1.cp_index = some i1) (hi2 : p2.cp_index = some i2)
    (hupd : attemptUpdate env f ug ((i1, v1), (i2, v2)) =
      .error (.valueError msg))
    (hmsg : twoPhaseMsg msg = false) :
    set_state env f s1 s2 vals ug = (f, some (.valueError msg)) := by
  unfold set_state try_flash_phase
  simp only [hp1, hp2, hres, hi1, hi2, hupd, handle_flash_error, hmsg,
    Bool.false_eq_true, if_false]

/-- `set_state` when the flash fails with a two-phase message, the
two-phase imposition succeeds, and the fallback root search fails: the
root-search failure is surfaced unrecovered. -/
theorem set_state_recovery_fail (env : Env) (f : FluidState) (s1 s2 : String)
    (vals : ℚ × ℚ) (ug : Bool) (p1 p2 : Item) (oi1 oi2 : Option Nat)
    (n1 n2 : Bool) (i1 i2 : Nat) (v1 v2 : ℚ) (msg : String)
    (f2 f3 : FluidState) (e3 : Err)
    (hp1 : parse_property_string env.store s1 = .ok (p1, oi1, n1))
    (hp2 : parse_property_string env.store s2 = .ok (p2, oi2, n2))
    (hres : resolveVals env p1 n1 p2 n2 vals.1 vals.2 = .ok (v1, v2))
    (hi1 : p1.cp_index = some i1) (hi2 : p2.cp_index = some i2)
    (hupd : attemptUpdate env f ug ((i1, v1), (i2, v2)) =
      .error (.valueError msg))
    (hmsg : twoPhaseMsg msg = true)
    (hsp : specify_phase env f "twophase" false = (f2, none))
    (hbq : brentq (residual env i1 v1 i2 v2) 0 1 (1/1000) f2 = (f3, .error e3)) :
    set_state env f s1 s2 vals ug = (f3, some e3) := by
  unfold set_state try_flash_phase
  simp only [hp1, hp2, hres, hi1, hi2, hupd, handle_flash_error, hmsg, if_true,
    hsp, hbq]

/-- `set_state` when the flash fails with a two-phase message and the
fallback root search succeeds: the converged triple is recorded from the
state left by the search. -/
theorem set_state_recovery_ok (env : Env) (f : FluidState) (s1 s2 : String)
    (vals : ℚ × ℚ) (ug : Bool) (p1 p2 : Item) (oi1 oi2 : Option Nat)
    (n1 n2 : Bool) (i1 i2 : Nat) (v1 v2 : ℚ) (msg : String)
    (f2 f3 : FluidState) (q : ℚ)
    (hp1 : parse_property_string env.store s1 = .ok (p1, oi1, n1))
    (hp2 : parse_property_string env.store s2 = .ok (p2, oi2, n2))
    (hres : resolveVals env p1 n1 p2 n2 vals.1 vals.2 = .ok (v1, v2))
    (hi1 : p1.cp_index = some i1) (hi2 : p2.cp_index = some i2)
    (hupd : attemptUpdate env f ug ((i1, v1), (i2, v2)) =
      .error (.valueError msg))
    (hmsg : twoPhaseMsg msg = true)
    (hsp : specify_phase env f "twophase" false = (f2, none))
    (hbq : brentq (residual env i1 v1 i2 v2) 0 1 (1/1000) f2 = (f3, .ok q)) :
    set_state env f s1 s2 vals ug = finalize f3 := by
  unfold set_state try_flash_phase
  simp only [hp1, hp2, hres, hi1, hi2, hupd, handle_flash_error, hmsg, if_true,
    hsp, hbq]

/-- `set_state` when the flash and the phase step succeed: the converged
triple is recorded from the state left by the phase step. -/
theorem set_state_success (env : Env) (f : FluidState) (s1 s2 : String)
    (vals : ℚ × ℚ) (ug : Bool) (p1 p2 : Item) (oi1 oi2 : Option Nat)
    (n1 n2 : Bool) (i1 i2 : Nat) (v1 v2 : ℚ) (st : CPState) (f1 : FluidState)
    (hp1 : parse_property_string env.store s1 = .ok (p1, oi1, n1))
    (hp2 : parse_property_string env.store s2 = .ok (p2, oi2, n2))
    (hres : resolveVals env p1 n1 p2 n2 vals.1 vals.2 = .ok (v1, v2))
    (hi1 : p1.cp_index = some i1) (hi2 : p2.cp_index = some i2)
    (hupd : attemptUpdate env f ug ((i1, v1), (i2, v2)) = .ok st)
    (hcp : calc_phase env
      { f with backend := { f.backend with cur := some st } } = (f1, none)) :
    set_state env f s1 s2 vals ug = finalize f1 := by
  unfold set_state try_flash_phase
  simp only [hp1, hp2, hres, hi1, hi2, hupd, hcp]

end Fluid

namespace Fluid

/-- `specify_phase` leaves the converged snapshot, the stored triple and
the rounding precision untouched in every outcome. -/
theorem specify_phase_TPD (env : Env) (f : FluidState) (k : String)
    (imp : Bool) :
    ((specify_phase env f k imp).1).T = f.T ∧
    ((specify_phase env f k imp).1).P = f.P ∧
    ((specify_phase env f k imp).1).D = f.D ∧
    ((specify_phase env f k imp).1).round_decimals = f.round_decimals ∧
    ((specify_phase env f k imp).1).backend.cur = f.backend.cur := by
  unfold specify_phase
  repeat' split
  all_goals simp

/-- `specify_phase` with `impose = False` never touches the phase-imposed
flag. -/
theorem specify_phase_false_imposed (env : Env) (f : FluidState)
    (k : String) :
    ((specify_phase env f k false).1).phase_imposed = f.phase_imposed := by
  unfold specify_phase
  repeat' split
  all_goals simp_all

/-- Successful `finalize` records exactly the backend state's
temperature, pressure and molar density. -/
theorem finalize_eval (f : FluidState) (st : CPState) (t p d : ℚ)
    (hcur : f.backend.cur = some st)
    (ht : st.keyedOut iT = .ok t) (hp : st.keyedOut iP = .ok p)
    (hd : st.keyedOut iDmolar = .ok d) :
    finalize f = ({ f with T := some t, P := some p, D := some d }, none) := by
  unfold finalize
  simp only [hcur, ht, hp, hd]

/-- A successful residual evaluation is a flash on `(Q, propA)` at the
backend's currently imposed phase, and the returned value is the
deviation of the resolved `propB` output from the resolved target. -/
theorem residual_ok (env : Env) (i1 : Nat) (v1 : ℚ) (i2 : Nat) (v2 : ℚ)
    (q : ℚ) (f f' : FluidState) (y : ℚ)
    (h : residual env i1 v1 i2 v2 q f = (f', .ok y)) :
    ∃ st w, env.phys.flash f.backend.spec ((iQ, q), (i1, v1)) = .ok st ∧
      st.keyedOut i2 = .ok w ∧ y = w - v2 ∧
      f' = { f with backend := { f.backend with cur := some st } } := by
  unfold residual at h
  split at h
  case _ e hfl => cases h
  case _ st hfl =>
    split at h
    case _ e hko => cases h
    case _ w hko =>
      cases h
      exact ⟨st, w, hfl, hko, rfl, rfl⟩

/-- A successful bisection returns a point of the bracket whose residual
is within tolerance, evaluated from a state reachable from the entry
state by residual evaluations only. -/
theorem brentqLoop_ok (env : Env) (i1 : Nat) (v1 : ℚ) (i2 : Nat) (v2 : ℚ)
    (tol : ℚ) (fuel : Nat) :
    ∀ a b fa f f3 q, 0 ≤ a → b ≤ 1 → a ≤ b →
      brentqLoop (residual env i1 v1 i2 v2) tol fuel a b fa f = (f3, .ok q) →
      0 ≤ q ∧ q ≤ 1 ∧
      ∃ fprev fm, sameButCur f fprev ∧
        residual env i1 v1 i2 v2 q fprev = (f3, .ok fm) ∧ ratAbs fm ≤ tol := by
  induction fuel with
  | zero =>
      intro a b fa f f3 q _ _ _ h
      cases h
  | succ n ih =>
      intro a b fa f f3 q ha hb hab h
      unfold brentqLoop at h
      split at h
      case _ f1 e hg => cases h
      case _ f1 fm hg =>
        have hfr : sameButCur f f1 := by
          have := residual_sameButCur env i1 v1 i2 v2 ((a + b) / 2) f
          rw [hg] at this
          exact this
        by_cases htol : ratAbs fm ≤ tol
        · rw [if_pos htol] at h
          cases h
          refine ⟨by linarith, by linarith, f, fm, sameButCur_refl f, hg, htol⟩
        · rw [if_neg htol] at h
          by_cases hsign : fa * fm ≤ 0
          · rw [if_pos hsign] at h
            obtain ⟨hq0, hq1, fprev, fm2, hfr2, hres2, htol2⟩ :=
              ih a ((a + b) / 2) fa f1 f3 q ha (by linarith) (by linarith) h
            exact ⟨hq0, hq1, fprev, fm2, sameButCur_trans hfr hfr2, hres2, htol2⟩
          · rw [if_neg hsign] at h
            obtain ⟨hq0, hq1, fprev, fm2, hfr2, hres2, htol2⟩ :=
              ih ((a + b) / 2) b fm f1 f3 q (by linarith) hb (by linarith) h
            exact ⟨hq0, hq1, fprev, fm2, sameButCur_trans hfr hfr2, hres2, htol2⟩

/-- A successful `brentq` run over `[0, 1]`. -/
theorem brentq_ok (env : Env) (i1 : Nat) (v1 : ℚ) (i2 : Nat) (v2 : ℚ)
    (tol : ℚ) (f f3 : FluidState) (q : ℚ)
    (h : brentq (residual env i1 v1 i2 v2) 0 1 tol f = (f3, .ok q)) :
    0 ≤ q ∧ q ≤ 1 ∧
    ∃ fprev fm, sameButCur f fprev ∧
      residual env i1 v1 i2 v2 q fprev = (f3, .ok fm) ∧ ratAbs fm ≤ tol := by
  unfold brentq at h
  split at h
  case _ f1 e hga => cases h
  case _ f1 fa hga =>
    have hfr1 : sameButCur f f1 := by
      have := residual_sameButCur env i1 v1 i2 v2 0 f
      rw [hga] at this
      exact this
    split at h
    case _ f2 e hgb => cases h
    case _ f2 fb hgb =>
      have hfr2 : sameButCur f f2 := by
        have := residual_sameButCur env i1 v1 i2 v2 1 f1
        rw [hgb] at this
        exact sameButCur_trans hfr1 this
      by_cases hs : fa * fb > 0
      · rw [if_pos hs] at h
        cases h
      · rw [if_neg hs] at h
        obtain ⟨hq0, hq1, fprev, fm, hfr3, hres3, htol3⟩ :=
          brentqLoop_ok env i1 v1 i2 v2 tol brentqFuel 0 1 fa f2 f3 q
            le_rfl le_rfl (by norm_num) h
        exact ⟨hq0, hq1, fprev, fm, sameButCur_trans hfr2 hfr3, hres3, htol3⟩

/-- `brentq` fails at once when the residual has the same strict sign at
both endpoints. -/
theorem brentq_not_bracketed (env : Env) (i1 : Nat) (v1 : ℚ) (i2 : Nat)
    (v2 : ℚ) (tol : ℚ) (f fA fB : FluidState) (fa fb : ℚ)
    (ha : residual env i1 v1 i2 v2 0 f = (fA, .ok fa))
    (hb : residual env i1 v1 i2 v2 1 fA = (fB, .ok fb))
    (hs : (0 < fa ∧ 0 < fb) ∨ (fa < 0 ∧ fb < 0)) :
    brentq (residual env i1 v1 i2 v2) 0 1 tol f =
      (fB, .error (.valueError "f(a) and f(b) must have different signs")) := by
  have hpos : fa * fb > 0 := by
    rcases hs with ⟨h1, h2⟩ | ⟨h1, h2⟩
    · exact mul_pos h1 h2
    · exact mul_pos_of_neg_of_neg h1 h2
  unfold brentq
  simp only [ha, hb, if_pos hpos]

end Fluid

namespace Fluid

/-- The try-block of `set_state` never touches the phase-imposed flag,
the stored triple, or the rounding precision. -/
theorem try_flash_phase_frame (env : Env) (f : FluidState) (ug : Bool)
    (inp : FlashInputs) :
    ((try_flash_phase env f ug inp).1).phase_imposed = f.phase_imposed ∧
    ((try_flash_phase env f ug inp).1).T = f.T ∧
    ((try_flash_phase env f ug inp).1).P = f.P ∧
    ((try_flash_phase env f ug inp).1).D = f.D ∧
    ((try_flash_phase env f ug inp).1).round_decimals = f.round_decimals := by
  unfold try_flash_phase
  split
  case _ st hupd =>
    simpa using
      calc_phase_frame env { f with backend := { f.backend with cur := some st } }
  case _ e hupd => exact ⟨rfl, rfl, rfl, rfl, rfl⟩

/-- The except-block of `set_state` never touches the phase-imposed flag
(its phase imposition uses `impose=False`). -/
theorem handle_flash_error_imposed (env : Env) (i1 : Nat) (v1 : ℚ)
    (i2 : Nat) (v2 : ℚ) (f1 : FluidState) (e : Err) :
    ((handle_flash_error env i1 v1 i2 v2 f1 e).1).phase_imposed =
      f1.phase_imposed := by
  unfold handle_flash_error
  split
  case _ msg =>
    by_cases hmsg : twoPhaseMsg msg = true
    · rw [if_pos hmsg]
      split
      case _ f2 e2 hsp =>
        have h := specify_phase_false_imposed env f1 "twophase"
        rw [hsp] at h
        exact h
      case _ f2 hsp =>
        have h := specify_phase_false_imposed env f1 "twophase"
        rw [hsp] at h
        split
        case _ f3 e3 hbq =>
          have hb := brentq_sameButCur env i1 v1 i2 v2 0 1 (1 / 1000) f2
          rw [hbq] at hb
          exact hb.2.1.trans h
        case _ f3 q hbq =>
          have hb := brentq_sameButCur env i1 v1 i2 v2 0 1 (1 / 1000) f2
          rw [hbq] at hb
          exact ((finalize_frame f3).2.1).trans (hb.2.1.trans h)
    · rw [if_neg hmsg]
  case _ => rfl

theorem set_state_tail_imposed (env : Env) (f : FluidState) (ug : Bool)
    (inp : FlashInputs) (i1 : Nat) (v1 : ℚ) (i2 : Nat) (v2 : ℚ) :
    ((match try_flash_phase env f ug inp with
      | (f1, none) => finalize f1
      | (f1, some e) => handle_flash_error env i1 v1 i2 v2 f1 e).1).phase_imposed =
      f.phase_imposed := by
  cases htf : try_flash_phase env f ug inp with
  | mk f1 r =>
      have h1 := (try_flash_phase_frame env f ug inp).1
      rw [htf] at h1
      cases r with
      | none =>
          simp only []
          exact ((finalize_frame f1).2.1).trans h1
      | some e =>
          simp only []
          exact (handle_flash_error_imposed env i1 v1 i2 v2 f1 e).trans h1

/-- `set_state` preserves the phase-imposed flag on every path: no
operation of the controller ever clears (or sets) it. -/
theorem set_state_imposed_preserved (env : Env) (f : FluidState)
    (s1 s2 : String) (vals : ℚ × ℚ) (ug : Bool) :
    ((set_state env f s1 s2 vals ug).1).phase_imposed = f.phase_imposed := by
  unfold set_state
  split
  · rfl
  · split
    · rfl
    · split
      · rfl
      · split
        · rfl
        · rfl
        · exact set_state_tail_imposed env f ug _ _ _ _ _

end Fluid

/-- A primary backend whose pressure-temperature flash fails with the
backend's two-phase non-convergence message, while a flash under the
imposed two-phase phase succeeds with the pressure linear in the trial
quality (root at Q = 1/2 for the target pressure 100). -/
def physTwoPhase : Physics :=
  { flash := fun spec inp =>
      if spec = iphase_twophase then
        .ok { keyed := [(iT, 300), (iP, 100 + (inp.1.2 - 1/2)), (iDmolar, 10),
                        (iQ, inp.1.2)],
              phaseIdx := none }
      else .error (.valueError "TwoPhase PT flash: 2-phase iteration did not converge")
    flashG := fun _ _ _ =>
      .error (.valueError "TwoPhase PT flash: 2-phase iteration did not converge") }

def envTP : Env :=
  { phys := physTwoPhase, store := defaultStore,
    handlers := Fluid.defaultHandlers, rp := rpProbe, normF := none }

/-- A fluid on which the caller imposed the liquid phase. -/
def fluidC8 : FluidState :=
  (Fluid.specify_phase envTP FluidState.init "liquid" true).1

def runC8 : FluidState × Option Err :=
  Fluid.set_state envTP fluidC8 "T" "P" (300, 100) false

/-- C8 counterexample: after `specify_phase("liquid", impose=True)` a
`set_state` whose flash fails with the two-phase message succeeds through
the recovery path — and the recovery's `specify_phase("twophase",
impose=False)` overwrites the caller's imposed phase on the instance,
while the phase-imposed flag stays set. -/
theorem specify_phase_imposed_overwritten_counterexample :
    fluidC8.phase = some liquidPhase ∧
    fluidC8.phase_imposed = true ∧
    runC8.2 = none ∧
    runC8.1.phase = some twophasePhase ∧
    runC8.1.phase_imposed = true ∧
    twophasePhase ≠ liquidPhase := by
  refine ⟨?_, ?_, ?_, ?_, ?_, ?_⟩ <;> with_unfolding_all decide

namespace Fluid

/-- Successful `specify_phase` evaluated: phase recorded, backend index
imposed, flag or-ed with `impose`. -/
theorem specify_phase_eval (env : Env) (f : FluidState) (k : String)
    (imp : Bool) (ph : Item) (i : Nat)
    (hget : Registry.get env.store k = .ok ph)
    (hidx : ph.cp_index = some i) :
    specify_phase env f k imp =
      ({ f with
          phase := some ph
          phase_imposed := f.phase_imposed || imp
          backend := { f.backend with spec := i } }, none) := by
  unfold specify_phase
  simp only [hget, hidx]
  cases imp with
  | false => simp
  | true => simp

/-- `_calc_phase` is a no-op when the phase-imposed flag is set. -/
theorem calc_phase_noop (env : Env) (f : FluidState)
    (h : f.phase_imposed = true) : calc_phase env f = (f, none) := by
  unfold calc_phase
  rw [if_pos h]

end Fluid

/-- C8 (amended): once the phase-imposed flag is set, no operation clears
it (`specify_phase` and `set_state` both preserve it), phase inference is
a no-op so a successful flash keeps the recorded phase — but the
two-phase recovery path of `set_state` overwrites the recorded phase with
the two-phase metadata even while the flag stays set. -/
theorem phase_imposed_invariants (env : Env) (f : FluidState) :
    (∀ k imp, f.phase_imposed = true →
      ((Fluid.specify_phase env f k imp).1).phase_imposed = true) ∧
    (∀ s1 s2 vals ug, f.phase_imposed = true →
      ((Fluid.set_state env f s1 s2 vals ug).1).phase_imposed = true) ∧
    (f.phase_imposed = true → Fluid.calc_phase env f = (f, none)) ∧
    (∀ s1 s2 vals ug p1 p2 oi1 oi2 n1 n2 i1 i2 v1 v2 st,
      f.phase_imposed = true →
      parse_property_string env.store s1 = .ok (p1, oi1, n1) →
      parse_property_string env.store s2 = .ok (p2, oi2, n2) →
      Fluid.resolveVals env p1 n1 p2 n2 vals.1 vals.2 = .ok (v1, v2) →
      p1.cp_index = some i1 → p2.cp_index = some i2 →
      Fluid.attemptUpdate env f ug ((i1, v1), (i2, v2)) = .ok st →
      ((Fluid.set_state env f s1 s2 vals ug).1).phase = f.phase) ∧
    (∀ s1 s2 vals ug p1 p2 oi1 oi2 n1 n2 i1 i2 v1 v2 msg tp itp,
      parse_property_string env.store s1 = .ok (p1, oi1, n1) →
      parse_property_string env.store s2 = .ok (p2, oi2, n2) →
      Fluid.resolveVals env p1 n1 p2 n2 vals.1 vals.2 = .ok (v1, v2) →
      p1.cp_index = some i1 → p2.cp_index = some i2 →
      Fluid.attemptUpdate env f ug ((i1, v1), (i2, v2)) =
        .error (.valueError msg) →
      Fluid.twoPhaseMsg msg = true →
      Registry.get env.store "twophase" = .ok tp → tp.cp_index = some itp →
      ((Fluid.set_state env f s1 s2 vals ug).1).phase = some tp) := by
  refine ⟨?_, ?_, ?_, ?_, ?_⟩
  · intro k imp himp
    rcases (Fluid.specify_phase_imposed_mono env f k imp).1 with h | h
    · rw [h, himp]
    · exact h
  · intro s1 s2 vals ug himp
    rw [Fluid.set_state_imposed_preserved, himp]
  · exact Fluid.calc_phase_noop env f
  · intro s1 s2 vals ug p1 p2 oi1 oi2 n1 n2 i1 i2 v1 v2 st himp hp1 hp2 hres
      hi1 hi2 hupd
    have hcp : Fluid.calc_phase env
        { f with backend := { f.backend with cur := some st } } =
        ({ f with backend := { f.backend with cur := some st } }, none) :=
      Fluid.calc_phase_noop env _ himp
    rw [Fluid.set_state_success env f s1 s2 vals ug p1 p2 oi1 oi2 n1 n2 i1 i2
      v1 v2 st _ hp1 hp2 hres hi1 hi2 hupd hcp]
    exact (Fluid.finalize_frame _).1
  · intro s1 s2 vals ug p1 p2 oi1 oi2 n1 n2 i1 i2 v1 v2 msg tp itp hp1 hp2
      hres hi1 hi2 hupd hmsg hget hidx
    have hsp := Fluid.specify_phase_eval env f "twophase" false tp itp hget hidx
    cases hbq : Fluid.brentq (Fluid.residual env i1 v1 i2 v2) 0 1 (1 / 1000)
        ({ f with
            phase := some tp
            phase_imposed := f.phase_imposed || false
            backend := { f.backend with spec := itp } }) with
    | mk f3 r =>
        have hb := Fluid.brentq_sameButCur env i1 v1 i2 v2 0 1 (1 / 1000)
          ({ f with
              phase := some tp
              phase_imposed := f.phase_imposed || false
              backend := { f.backend with spec := itp } })
        rw [hbq] at hb
        cases r with
        | error e3 =>
            rw [Fluid.set_state_recovery_fail env f s1 s2 vals ug p1 p2 oi1 oi2
              n1 n2 i1 i2 v1 v2 msg _ f3 e3 hp1 hp2 hres hi1 hi2 hupd hmsg hsp
              hbq]
            exact hb.1
        | ok q =>
            rw [Fluid.set_state_recovery_ok env f s1 s2 vals ug p1 p2 oi1 oi2
              n1 n2 i1 i2 v1 v2 msg _ f3 q hp1 hp2 hres hi1 hi2 hupd hmsg hsp
              hbq]
            exact ((Fluid.finalize_frame f3).1).trans hb.1

/-- A primary backend on which every flash converges, classifying the
state as gas. -/
def physOK : Physics :=
  { flash := fun _ inp =>
      .ok { keyed := [(iT, inp.1.2), (iP, inp.2.2), (iDmolar, 10), (iQ, 2)],
            phaseIdx := some iphase_gas }
    flashG := fun _ inp _ =>
      .ok { keyed := [(iT, inp.1.2), (iP, inp.2.2), (iDmolar, 10), (iQ, 2)],
            phaseIdx := some iphase_gas } }

def envOK : Env :=
  { phys := physOK, store := defaultStore, handlers := Fluid.defaultHandlers,
    rp := rpProbe, normF := none }

/-- Concrete runs instantiating `phase_imposed_invariants` on the
liquid-imposed fluid: the flag survives `specify_phase` and `set_state`,
inference is a no-op, a successful flash keeps the imposed liquid phase,
and the recovery run records the two-phase metadata instead. -/
theorem phase_imposed_invariants_witness :
    ((Fluid.specify_phase envTP fluidC8 "gas" false).1).phase_imposed = true ∧
    runC8.1.phase_imposed = true ∧
    Fluid.calc_phase envTP fluidC8 = (fluidC8, none) ∧
    ((Fluid.set_state envOK fluidC8 "T" "P" (300, 100) false).1).phase =
      fluidC8.phase ∧
    runC8.1.phase = some twophasePhase := by
  refine ⟨?_, ?_, ?_, ?_, ?_⟩
  · exact (phase_imposed_invariants envTP fluidC8).1 "gas" false
      (by with_unfolding_all decide)
  · exact (phase_imposed_invariants envTP fluidC8).2.1 "T" "P" (300, 100) false
      (by with_unfolding_all decide)
  · exact (phase_imposed_invariants envTP fluidC8).2.2.1
      (by with_unfolding_all decide)
  · exact (phase_imposed_invariants envOK fluidC8).2.2.2.1 "T" "P" (300, 100)
      false propT propP none none false false iT iP 300 100
      { keyed := [(iT, 300), (iP, 100), (iDmolar, 10), (iQ, 2)],
        phaseIdx := some iphase_gas }
      (by with_unfolding_all decide) (by decide) (by decide)
      (by with_unfolding_all decide) (by decide) (by decide)
      (by with_unfolding_all decide)
  · exact (phase_imposed_invariants envTP fluidC8).2.2.2.2 "T" "P" (300, 100)
      false propT propP none none false false iT iP 300 100
      "TwoPhase PT flash: 2-phase iteration did not converge" twophasePhase
      iphase_twophase
      (by decide) (by decide) (by with_unfolding_all decide) (by decide)
      (by decide) (by with_unfolding_all decide) (by decide) (by decide)
      (by decide)

/-- C9: when `set_state` terminates by raising — the flash error is
re-raised because its message does not signal two-phase non-convergence,
or the fallback root search itself fails — the stored `(T, P, D)` triple
is unchanged; when the recovery succeeds, the triple is updated to the
recovered state's values even though the original flash failed. -/
theorem set_state_last_converged_triple (env : Env) (f : FluidState)
    (s1 s2 : String) (vals : ℚ × ℚ) (ug : Bool) (p1 p2 : Item)
    (oi1 oi2 : Option Nat) (n1 n2 : Bool) (i1 i2 : Nat) (v1 v2 : ℚ)
    (msg : String)
    (hp1 : parse_property_string env.store s1 = .ok (p1, oi1, n1))
    (hp2 : parse_property_string env.store s2 = .ok (p2, oi2, n2))
    (hres : Fluid.resolveVals env p1 n1 p2 n2 vals.1 vals.2 = .ok (v1, v2))
    (hi1 : p1.cp_index = some i1) (hi2 : p2.cp_index = some i2)
    (hupd : Fluid.attemptUpdate env f ug ((i1, v1), (i2, v2)) =
      .error (.valueError msg)) :
    (Fluid.twoPhaseMsg msg = false →
      Fluid.set_state env f s1 s2 vals ug = (f, some (.valueError msg))) ∧
    (∀ f2 f3 e3, Fluid.twoPhaseMsg msg = true →
      Fluid.specify_phase env f "twophase" false = (f2, none) →
      Fluid.brentq (Fluid.residual env i1 v1 i2 v2) 0 1 (1/1000) f2 =
        (f3, .error e3) →
      Fluid.set_state env f s1 s2 vals ug = (f3, some e3) ∧
      f3.T = f.T ∧ f3.P = f.P ∧ f3.D = f.D) ∧
    (∀ f2 f3 q st t p d, Fluid.twoPhaseMsg msg = true →
      Fluid.specify_phase env f "twophase" false = (f2, none) →
      Fluid.brentq (Fluid.residual env i1 v1 i2 v2) 0 1 (1/1000) f2 =
        (f3, .ok q) →
      f3.backend.cur = some st →
      st.keyedOut iT = .ok t → st.keyedOut iP = .ok p →
      st.keyedOut iDmolar = .ok d →
      Fluid.set_state env f s1 s2 vals ug =
        ({ f3 with T := some t, P := some p, D := some d }, none)) := by
  refine ⟨?_, ?_, ?_⟩
  · intro hmsg
    exact Fluid.set_state_reraise env f s1 s2 vals ug p1 p2 oi1 oi2 n1 n2 i1 i2
      v1 v2 msg hp1 hp2 hres hi1 hi2 hupd hmsg
  · intro f2 f3 e3 hmsg hsp hbq
    refine ⟨Fluid.set_state_recovery_fail env f s1 s2 vals ug p1 p2 oi1 oi2 n1
      n2 i1 i2 v1 v2 msg f2 f3 e3 hp1 hp2 hres hi1 hi2 hupd hmsg hsp hbq,
      ?_, ?_, ?_⟩
    all_goals
      have hspf := Fluid.specify_phase_TPD env f "twophase" false
      rw [hsp] at hspf
      have hb := Fluid.brentq_sameButCur env i1 v1 i2 v2 0 1 (1/1000) f2
      rw [hbq] at hb
    · exact (hb.2.2.1).trans hspf.1
    · exact (hb.2.2.2.1).trans hspf.2.1
    · exact (hb.2.2.2.2.1).trans hspf.2.2.1
  · intro f2 f3 q st t p d hmsg hsp hbq hcur ht hpp hd
    rw [Fluid.set_state_recovery_ok env f s1 s2 vals ug p1 p2 oi1 oi2 n1 n2 i1
      i2 v1 v2 msg f2 f3 q hp1 hp2 hres hi1 hi2 hupd hmsg hsp hbq]
    exact Fluid.finalize_eval f3 st t p d hcur ht hpp hd

/-- A primary backend whose flash fails with a message that does not
signal two-phase non-convergence. -/
def physOther : Physics :=
  { flash := fun _ _ => .error (.valueError "Input pair is not yet supported")
    flashG := fun _ _ _ => .error (.valueError "Input pair is not yet supported") }

def envOther : Env :=
  { phys := physOther, store := defaultStore, handlers := Fluid.defaultHandlers,
    rp := rpProbe, normF := none }

/-- The fluid state after the recovery imposes the two-phase phase on the
liquid-imposed fluid. -/
def fluidC9a : FluidState :=
  { phase := some twophasePhase, phase_imposed := true, T := none, P := none,
    D := none, round_decimals := some 6,
    backend := { spec := iphase_twophase, cur := none } }

/-- The backend snapshot the fallback search leaves behind at Q = 1/2. -/
def stRec : CPState :=
  { keyed := [(iT, 300), (iP, 100), (iDmolar, 10), (iQ, 1/2)],
    phaseIdx := none }

def fluidC9b : FluidState :=
  { fluidC9a with backend := { spec := iphase_twophase, cur := some stRec } }

/-- Concrete runs instantiating `set_state_last_converged_triple`: the
recovery success records `(300, 100, 10)` from the recovered state, and a
non-two-phase failure leaves the fresh instance untouched. -/
theorem set_state_last_converged_triple_witness :
    Fluid.set_state envTP fluidC8 "T" "P" (300, 100) false =
      ({ fluidC9b with T := some 300, P := some 100, D := some 10 }, none) ∧
    Fluid.set_state envOther FluidState.init "T" "P" (300, 100) false =
      (FluidState.init, some (.valueError "Input pair is not yet supported")) := by
  constructor
  · exact (set_state_last_converged_triple envTP fluidC8 "T" "P" (300, 100)
      false propT propP none none false false iT iP 300 100
      "TwoPhase PT flash: 2-phase iteration did not converge"
      (by decide) (by decide) (by with_unfolding_all decide) (by decide)
      (by decide) (by with_unfolding_all decide)).2.2 fluidC9a fluidC9b (1/2)
      stRec 300 100 10 (by decide) (by with_unfolding_all decide)
      (by with_unfolding_all decide) (by with_unfolding_all decide)
      (by with_unfolding_all decide) (by with_unfolding_all decide)
      (by with_unfolding_all decide)
  · exact (set_state_last_converged_triple envOther FluidState.init "T" "P"
      (300, 100) false propT propP none none false false iT iP 300 100
      "Input pair is not yet supported"
      (by decide) (by decide) (by with_unfolding_all decide) (by decide)
      (by decide) (by with_unfolding_all decide)).1 (by decide)

/-- C1: behaviour of `set_state` when the primary-backend flash raises.
A `ValueError` whose message does not contain `2-phase`/`two-phase`
(case-insensitively) is re-raised unmodified.  When it does, the
controller imposes the two-phase phase on the backend without setting the
instance's phase-imposed flag and runs the bounded quality root search on
`[0, 1]` with tolerance 1e-3: a success returns a quality in the closed
interval whose flash — on `(Q, propA)` at the imposed two-phase index —
reproduces the resolved `propB` target within the tolerance, while a
residual with the same strict sign at `Q = 0` and `Q = 1` makes the
search fail and that failure is surfaced to the caller unrecovered. -/
theorem set_state_two_phase_recovery (env : Env) (f : FluidState)
    (s1 s2 : String) (vals : ℚ × ℚ) (ug : Bool) (p1 p2 : Item)
    (oi1 oi2 : Option Nat) (n1 n2 : Bool) (i1 i2 : Nat) (v1 v2 : ℚ)
    (msg : String)
    (hp1 : parse_property_string env.store s1 = .ok (p1, oi1, n1))
    (hp2 : parse_property_string env.store s2 = .ok (p2, oi2, n2))
    (hres : Fluid.resolveVals env p1 n1 p2 n2 vals.1 vals.2 = .ok (v1, v2))
    (hi1 : p1.cp_index = some i1) (hi2 : p2.cp_index = some i2)
    (hupd : Fluid.attemptUpdate env f ug ((i1, v1), (i2, v2)) =
      .error (.valueError msg)) :
    (Fluid.twoPhaseMsg msg = false →
      Fluid.set_state env f s1 s2 vals ug = (f, some (.valueError msg))) ∧
    (∀ tp itp, Fluid.twoPhaseMsg msg = true →
      Registry.get env.store "twophase" = .ok tp → tp.cp_index = some itp →
      ∃ f2, Fluid.specify_phase env f "twophase" false = (f2, none) ∧
        f2.backend.spec = itp ∧ f2.phase_imposed = f.phase_imposed ∧
        f2.phase = some tp) ∧
    (∀ f2 f3 q, Fluid.twoPhaseMsg msg = true →
      Fluid.specify_phase env f "twophase" false = (f2, none) →
      Fluid.brentq (Fluid.residual env i1 v1 i2 v2) 0 1 (1/1000) f2 =
        (f3, .ok q) →
      Fluid.set_state env f s1 s2 vals ug = Fluid.finalize f3 ∧
      0 ≤ q ∧ q ≤ 1 ∧
      ∃ st w, env.phys.flash f2.backend.spec ((iQ, q), (i1, v1)) = .ok st ∧
        st.keyedOut i2 = .ok w ∧ Fluid.ratAbs (w - v2) ≤ 1/1000 ∧
        f3.backend.cur = some st) ∧
    (∀ f2 fA fB fa fb, Fluid.twoPhaseMsg msg = true →
      Fluid.specify_phase env f "twophase" false = (f2, none) →
      Fluid.residual env i1 v1 i2 v2 0 f2 = (fA, .ok fa) →
      Fluid.residual env i1 v1 i2 v2 1 fA = (fB, .ok fb) →
      (0 < fa ∧ 0 < fb) ∨ (fa < 0 ∧ fb < 0) →
      Fluid.set_state env f s1 s2 vals ug =
        (fB, some (.valueError "f(a) and f(b) must have different signs"))) := by
  refine ⟨?_, ?_, ?_, ?_⟩
  · intro hmsg
    exact Fluid.set_state_reraise env f s1 s2 vals ug p1 p2 oi1 oi2 n1 n2 i1 i2
      v1 v2 msg hp1 hp2 hres hi1 hi2 hupd hmsg
  · intro tp itp hmsg hget hidx
    refine ⟨_, Fluid.specify_phase_eval env f "twophase" false tp itp hget hidx,
      rfl, ?_, rfl⟩
    simp
  · intro f2 f3 q hmsg hsp hbq
    refine ⟨Fluid.set_state_recovery_ok env f s1 s2 vals ug p1 p2 oi1 oi2 n1 n2
      i1 i2 v1 v2 msg f2 f3 q hp1 hp2 hres hi1 hi2 hupd hmsg hsp hbq, ?_⟩
    obtain ⟨hq0, hq1, fprev, fm, hsame, hresid, htol⟩ :=
      Fluid.brentq_ok env i1 v1 i2 v2 (1/1000) f2 f3 q hbq
    obtain ⟨st, w, hfl, hko, hy, hf3⟩ :=
      Fluid.residual_ok env i1 v1 i2 v2 q fprev f3 fm hresid
    refine ⟨hq0, hq1, st, w, ?_, hko, ?_, ?_⟩
    · rw [← hsame.2.2.2.2.2.2]
      exact hfl
    · rw [← hy]
      exact htol
    · rw [hf3]
  · intro f2 fA fB fa fb hmsg hsp hA hB hsign
    exact Fluid.set_state_recovery_fail env f s1 s2 vals ug p1 p2 oi1 oi2 n1 n2
      i1 i2 v1 v2 msg f2 fB
      (.valueError "f(a) and f(b) must have different signs")
      hp1 hp2 hres hi1 hi2 hupd hmsg hsp
      (Fluid.brentq_not_bracketed env i1 v1 i2 v2 (1/1000) f2 fA fB fa fb hA hB
        hsign)

/-- A primary backend whose two-phase flash always overshoots the target
pressure: the fallback residual has the same sign at both endpoints. -/
def physNB : Physics :=
  { flash := fun spec inp =>
      if spec = iphase_twophase then
        .ok { keyed := [(iT, 300), (iP, 200 + inp.1.2), (iDmolar, 10),
                        (iQ, inp.1.2)],
              phaseIdx := none }
      else .error (.valueError "TwoPhase PT flash: 2-phase iteration did not converge")
    flashG := fun _ _ _ =>
      .error (.valueError "TwoPhase PT flash: 2-phase iteration did not converge") }

def envNB : Env :=
  { phys := physNB, store := defaultStore, handlers := Fluid.defaultHandlers,
    rp := rpProbe, normF := none }

/-- The fresh fluid after the recovery imposes the two-phase phase. -/
def fluidNB2 : FluidState :=
  { phase := some twophasePhase, phase_imposed := false, T := none, P := none,
    D := none, round_decimals := some 6,
    backend := { spec := iphase_twophase, cur := none } }

def stNB0 : CPState :=
  { keyed := [(iT, 300), (iP, 200), (iDmolar, 10), (iQ, 0)], phaseIdx := none }

def fluidNBa : FluidState :=
  { fluidNB2 with backend := { spec := iphase_twophase, cur := some stNB0 } }

def stNB1 : CPState :=
  { keyed := [(iT, 300), (iP, 201), (iDmolar, 10), (iQ, 1)], phaseIdx := none }

def fluidNBb : FluidState :=
  { fluidNB2 with backend := { spec := iphase_twophase, cur := some stNB1 } }

/-- Concrete runs instantiating `set_state_two_phase_recovery`: a
non-two-phase failure is re-raised on the untouched instance; on the
two-phase failure the backend gets the two-phase index without the
instance flag; the recovery run converges to `Q = 1/2` matching the
pressure target 100 within 1e-3; and the overshooting backend leaves the
residual unbracketed, so the sign failure of the root search reaches the
caller. -/
theorem set_state_two_phase_recovery_witness :
    Fluid.set_state envOther FluidState.init "P" "D" (100, 10) false =
      (FluidState.init, some (.valueError "Input pair is not yet supported")) ∧
    (∃ f2, Fluid.specify_phase envTP fluidC8 "twophase" false = (f2, none) ∧
      f2.backend.spec = iphase_twophase ∧
      f2.phase_imposed = fluidC8.phase_imposed ∧
      f2.phase = some twophasePhase) ∧
    (Fluid.set_state envTP fluidC8 "T" "P" (300, 100) false =
        Fluid.finalize fluidC9b ∧
      0 ≤ (1/2 : ℚ) ∧ (1/2 : ℚ) ≤ 1 ∧
      ∃ st w, envTP.phys.flash fluidC9a.backend.spec ((iQ, 1/2), (iT, 300)) =
          .ok st ∧
        st.keyedOut iP = .ok w ∧ Fluid.ratAbs (w - 100) ≤ 1/1000 ∧
        fluidC9b.backend.cur = some st) ∧
    Fluid.set_state envNB FluidState.init "T" "P" (300, 100) false =
      (fluidNBb, some (.valueError "f(a) and f(b) must have different signs")) := by
  refine ⟨?_, ?_, ?_, ?_⟩
  · exact (set_state_two_phase_recovery envOther FluidState.init "P" "D"
      (100, 10) false propP propD none none false false iP iDmolar 100 10
      "Input pair is not yet supported"
      (by decide) (by decide) (by with_unfolding_all decide) (by decide)
      (by decide) (by with_unfolding_all decide)).1 (by decide)
  · exact (set_state_two_phase_recovery envTP fluidC8 "T" "P" (300, 100) false
      propT propP none none false false iT iP 300 100
      "TwoPhase PT flash: 2-phase iteration did not converge"
      (by decide) (by decide) (by with_unfolding_all decide) (by decide)
      (by decide) (by with_unfolding_all decide)).2.1 twophasePhase
      iphase_twophase (by decide) (by decide) (by decide)
  · exact (set_state_two_phase_recovery envTP fluidC8 "T" "P" (300, 100) false
      propT propP none none false false iT iP 300 100
      "TwoPhase PT flash: 2-phase iteration did not converge"
      (by decide) (by decide) (by with_unfolding_all decide) (by decide)
      (by decide) (by with_unfolding_all decide)).2.2.1 fluidC9a fluidC9b (1/2)
      (by decide) (by with_unfolding_all decide) (by with_unfolding_all decide)
  · exact (set_state_two_phase_recovery envNB FluidState.init "T" "P"
      (300, 100) false propT propP none none false false iT iP 300 100
      "TwoPhase PT flash: 2-phase iteration did not converge"
      (by decide) (by decide) (by with_unfolding_all decide) (by decide)
      (by decide) (by with_unfolding_all decide)).2.2.2 fluidNB2 fluidNBa
      fluidNBb 100 101 (by decide) (by with_unfolding_all decide)
      (by with_unfolding_all decide) (by with_unfolding_all decide)
      (Or.inl ⟨by norm_num, by norm_num⟩)

/-- A primary backend whose guess-assisted update path converges to a
slightly different state than the plain path (the first input is shifted
by one): physically questionable, but nothing in the controller forbids
it. -/
def physGS : Physics :=
  { flash := fun _ inp =>
      .ok { keyed := [(inp.1.1, inp.1.2), (inp.2.1, inp.2.2), (iT, 300),
                      (iP, 77), (iDmolar, 10), (iQ, 2)],
            phaseIdx := some iphase_gas }
    flashG := fun _ inp _ =>
      .ok { keyed := [(inp.1.1, inp.1.2 + 1), (inp.2.1, inp.2.2), (iT, 300),
                      (iP, 77), (iDmolar, 10), (iQ, 2)],
            phaseIdx := some iphase_gas } }

def envGS : Env :=
  { phys := physGS, store := defaultStore, handlers := Fluid.defaultHandlers,
    rp := rpProbe, normF := none }

/-- C7 counterexample: in the batch, row 0 runs unguessed (no previous
converged state) but row 1 runs through the guess-assisted path, which on
this backend converges to T = 311; the independent evaluation of row 1
from the pre-batch state has no previous converged state, runs unguessed,
and yields T = 310.  The batch cell does not equal the independent
call. -/
theorem set_states_calc_props_guess_counterexample :
    (Fluid.set_states_calc_props envGS FluidState.init "T" "P"
        [(300, 100), (310, 110)] ["T"]).2 =
      .ok [[.num 300], [.num 311]] ∧
    Fluid.independentEval envGS FluidState.init "T" "P" (310, 110) ["T"] =
      .ok [.num 310] ∧
    PVal.num 311 ≠ PVal.num 310 := by
  refine ⟨?_, ?_, ?_⟩ <;> with_unfolding_all decide

namespace Fluid

/-- Under a backend whose guess-assisted update agrees with the plain
update, the flash attempt of `set_state` is simply the plain flash at the
current imposed phase, whatever previous converged state exists. -/
theorem attemptUpdate_guessfree (env : Env) (g : FluidState)
    (inp : FlashInputs)
    (H1 : ∀ s i gu, env.phys.flashG s i gu = env.phys.flash s i) :
    attemptUpdate env g true inp = env.phys.flash g.backend.spec inp := by
  unfold attemptUpdate
  by_cases hd : g.D.isSome
  · simp [hd, H1]
  · simp [hd]

/-- Forward evaluation of a successful `_calc_phase` on an un-imposed
instance. -/
theorem calc_phase_ok_forward (env : Env) (f : FluidState) (st st2 : CPState)
    (ph : Item) (i : Nat) (d t : ℚ)
    (himp : f.phase_imposed = false) (hcur : f.backend.cur = some st)
    (hdp : determine_phase env st = .ok ph) (hpi : ph.cp_index = some i)
    (hd : st.keyedOut iDmolar = .ok d) (ht : st.keyedOut iT = .ok t)
    (hfl : env.phys.flash i ((iDmolar, d), (iT, t)) = .ok st2) :
    calc_phase env f =
      ({ f with
          phase := some ph
          backend := { spec := iphase_not_imposed, cur := some st2 } }, none) := by
  unfold calc_phase
  simp only [himp, Bool.false_eq_true, if_false, hcur, hdp, hpi, hd, ht, hfl]

/-- Inversion of a successful `_calc_phase` on an un-imposed instance:
it classified the state, imposed the phase, re-flashed from
`(Dmolar, T)` and cleared the imposition. -/
theorem calc_phase_ok_inversion (env : Env) (f : FluidState) (st : CPState)
    (f1 : FluidState)
    (himp : f.phase_imposed = false) (hcur : f.backend.cur = some st)
    (h : calc_phase env f = (f1, none)) :
    ∃ ph i d t st2, determine_phase env st = .ok ph ∧ ph.cp_index = some i ∧
      st.keyedOut iDmolar = .ok d ∧ st.keyedOut iT = .ok t ∧
      env.phys.flash i ((iDmolar, d), (iT, t)) = .ok st2 ∧
      f1 = { f with
              phase := some ph
              backend := { spec := iphase_not_imposed, cur := some st2 } } := by
  unfold calc_phase at h
  simp only [himp, Bool.false_eq_true, if_false, hcur] at h
  split at h
  case _ e hdp => simp at h
  case _ ph hdp =>
    split at h
    case _ hpi => simp at h
    case _ i hpi =>
      split at h
      case _ e hd => simp at h
      case _ d hd =>
        split at h
        case _ e ht => simp at h
        case _ t ht =>
          split at h
          case _ e hfl => simp at h
          case _ st2 hfl =>
            refine ⟨ph, i, d, t, st2, hdp, hpi, hd, ht, hfl, ?_⟩
            have := (Prod.mk.injEq _ _ _ _).mp h
            rw [himp]
            exact this.1.symm

/-- Inversion of a successful `finalize`. -/
theorem finalize_ok_inversion (f f1 : FluidState)
    (h : finalize f = (f1, none)) :
    ∃ st t p d, f.backend.cur = some st ∧ st.keyedOut iT = .ok t ∧
      st.keyedOut iP = .ok p ∧ st.keyedOut iDmolar = .ok d ∧
      f1 = { f with T := some t, P := some p, D := some d } := by
  unfold finalize at h
  split at h
  case _ hcur => simp at h
  case _ st hcur =>
    split at h
    case _ e ht => simp at h
    case _ t ht =>
      split at h
      case _ e hp => simp at h
      case _ p hp =>
        split at h
        case _ e hd => simp at h
        case _ d hd =>
          refine ⟨st, t, p, d, hcur, ht, hp, hd, ?_⟩
          have := (Prod.mk.injEq _ _ _ _).mp h
          exact this.1.symm

end Fluid

namespace Fluid

/-- One batch row is well behaved: from the pre-batch state the flash of
the resolved inputs converges directly (no recovery) and the phase step
and the triple recording succeed. -/
def DirectRowOk (env : Env) (f0 : FluidState) (s1 s2 : String)
    (v : ℚ × ℚ) : Prop :=
  ∃ p1 p2 oi1 oi2 n1 n2 i1 i2 v1 v2 st f1 f2,
    parse_property_string env.store s1 = .ok (p1, oi1, n1) ∧
    parse_property_string env.store s2 = .ok (p2, oi2, n2) ∧
    resolveVals env p1 n1 p2 n2 v.1 v.2 = .ok (v1, v2) ∧
    p1.cp_index = some i1 ∧ p2.cp_index = some i2 ∧
    env.phys.flash f0.backend.spec ((i1, v1), (i2, v2)) = .ok st ∧
    calc_phase env
      { f0 with backend := { f0.backend with cur := some st } } = (f1, none) ∧
    finalize f1 = (f2, none)

/-- Row congruence: under a guess-insensitive backend, a well-behaved row
runs identically from any batch state that agrees with the pre-batch
state on the backend phase imposition, the phase-imposed flag, the
rounding precision and (when the flag is set) the recorded phase; and
the run restores those agreements. -/
theorem set_state_row_congr (env : Env) (f0 g : FluidState) (s1 s2 : String)
    (v : ℚ × ℚ)
    (H1 : ∀ s i gu, env.phys.flashG s i gu = env.phys.flash s i)
    (hspec : g.backend.spec = f0.backend.spec)
    (himp : g.phase_imposed = f0.phase_imposed)
    (hround : g.round_decimals = f0.round_decimals)
    (hph : f0.phase_imposed = true → g.phase = f0.phase)
    (hrow : DirectRowOk env f0 s1 s2 v) :
    set_state env g s1 s2 v true = set_state env f0 s1 s2 v true ∧
    (set_state env f0 s1 s2 v true).2 = none ∧
    ((set_state env f0 s1 s2 v true).1).backend.spec =
      (if f0.phase_imposed then f0.backend.spec else iphase_not_imposed) ∧
    ((set_state env f0 s1 s2 v true).1).phase_imposed = f0.phase_imposed ∧
    ((set_state env f0 s1 s2 v true).1).round_decimals = f0.round_decimals ∧
    (f0.phase_imposed = true →
      ((set_state env f0 s1 s2 v true).1).phase = f0.phase) := by
  obtain ⟨p1, p2, oi1, oi2, n1, n2, i1, i2, v1, v2, st, f1, f2, hp1, hp2, hres,
    hi1, hi2, hfl, hcp, hfin⟩ := hrow
  have hupd0 : attemptUpdate env f0 true ((i1, v1), (i2, v2)) = .ok st := by
    rw [attemptUpdate_guessfree env f0 _ H1]
    exact hfl
  have hupdg : attemptUpdate env g true ((i1, v1), (i2, v2)) = .ok st := by
    rw [attemptUpdate_guessfree env g _ H1, hspec]
    exact hfl
  have hss0 : set_state env f0 s1 s2 v true = finalize f1 :=
    set_state_success env f0 s1 s2 v true p1 p2 oi1 oi2 n1 n2 i1 i2 v1 v2 st f1
      hp1 hp2 hres hi1 hi2 hupd0 hcp
  obtain ⟨stF, t, p, d, hcurF, ht, hpr, hd, hf2⟩ := finalize_ok_inversion f1 f2 hfin
  by_cases himpf : f0.phase_imposed = true
  · -- imposed: the phase step is a no-op on both runs
    have hnoop := calc_phase_noop env
      { f0 with backend := { f0.backend with cur := some st } } (by simpa using himpf)
    have hf1 : f1 = { f0 with backend := { f0.backend with cur := some st } } := by
      rw [hnoop] at hcp
      exact ((Prod.mk.injEq _ _ _ _).mp hcp).1.symm
    have hstF : stF = st := by
      rw [hf1] at hcurF
      simpa using hcurF.symm
    rw [hstF] at ht hpr hd
    have hnoopg := calc_phase_noop env
      { g with backend := { g.backend with cur := some st } }
      (by simpa [himp] using himpf)
    have hssg : set_state env g s1 s2 v true =
        finalize { g with backend := { g.backend with cur := some st } } :=
      set_state_success env g s1 s2 v true p1 p2 oi1 oi2 n1 n2 i1 i2 v1 v2 st _
        hp1 hp2 hres hi1 hi2 hupdg hnoopg
    have hfing : finalize { g with backend := { g.backend with cur := some st } } =
        ({ { g with backend := { g.backend with cur := some st } } with
            T := some t, P := some p, D := some d }, none) :=
      finalize_eval _ st t p d rfl ht hpr hd
    have hstate :
        ({ { g with backend := { g.backend with cur := some st } } with
            T := some t, P := some p, D := some d } : FluidState) = f2 := by
      rw [hf2, hf1]
      simp [FluidState.mk.injEq, CPBackend.mk.injEq, himp, hround, hspec,
        hph himpf]
    refine ⟨?_, ?_, ?_, ?_, ?_, ?_⟩
    · rw [hssg, hss0, hfing, hfin, hstate]
    · rw [hss0, hfin]
    · rw [hss0, hfin, if_pos himpf, hf2, hf1]
    · rw [hss0, hfin, hf2, hf1]
    · rw [hss0, hfin, hf2, hf1]
    · intro _
      rw [hss0, hfin, hf2, hf1]
  · -- not imposed: both runs classify from the same snapshot
    have himpf0 : f0.phase_imposed = false := by
      revert himpf
      cases f0.phase_imposed <;> simp
    obtain ⟨ph, i, dd, tt, st2, hdp, hpi, hdm, htm, hrefl, hf1⟩ :=
      calc_phase_ok_inversion env
        { f0 with backend := { f0.backend with cur := some st } } st f1
        (by simpa using himpf0) rfl hcp
    have hcpg := calc_phase_ok_forward env
      { g with backend := { g.backend with cur := some st } } st st2 ph i dd tt
      (by simpa [himp] using himpf0) rfl hdp hpi hdm htm hrefl
    have hssg : set_state env g s1 s2 v true =
        finalize { { g with backend := { g.backend with cur := some st } } with
          phase := some ph
          backend := { spec := iphase_not_imposed, cur := some st2 } } :=
      set_state_success env g s1 s2 v true p1 p2 oi1 oi2 n1 n2 i1 i2 v1 v2 st _
        hp1 hp2 hres hi1 hi2 hupdg hcpg
    have hstF : stF = st2 := by
      rw [hf1] at hcurF
      simpa using hcurF.symm
    rw [hstF] at ht hpr hd
    have hfing : finalize { { g with backend := { g.backend with cur := some st } } with
        phase := some ph
        backend := { spec := iphase_not_imposed, cur := some st2 } } =
        ({ { { g with backend := { g.backend with cur := some st } } with
            phase := some ph
            backend := { spec := iphase_not_imposed, cur := some st2 } } with
            T := some t, P := some p, D := some d }, none) :=
      finalize_eval _ st2 t p d rfl ht hpr hd
    have hstate :
        ({ { { g with backend := { g.backend with cur := some st } } with
            phase := some ph
            backend := { spec := iphase_not_imposed, cur := some st2 } } with
            T := some t, P := some p, D := some d } : FluidState) = f2 := by
      rw [hf2, hf1]
      simp [FluidState.mk.injEq, CPBackend.mk.injEq, himp, hround]
    refine ⟨?_, ?_, ?_, ?_, ?_, ?_⟩
    · rw [hssg, hss0, hfing, hfin, hstate]
    · rw [hss0, hfin]
    · rw [hss0, hfin, if_neg himpf, hf2, hf1]
    · rw [hss0, hfin, hf2, hf1]
    · rw [hss0, hfin, hf2, hf1]
    · intro hcontra
      exact absurd hcontra himpf

end Fluid

namespace Fluid

/-- Modelled from the spec (claim C7 reference semantics): the table of
independently evaluated cells — every row evaluated by `set_state` plus
`calc_props` from the same pre-batch fluid state. -/
def independentTable (env : Env) (f0 : FluidState) (s1 s2 : String)
    (rows : List (ℚ × ℚ)) (targets : List String) :
    Except Err (List (List PVal)) :=
  match rows with
  | [] => .ok []
  | v :: rest =>
      match independentEval env f0 s1 s2 v targets with
      | .error e => .error e
      | .ok row =>
          match independentTable env f0 s1 s2 rest targets with
          | .error e => .error e
          | .ok tbl => .ok (row :: tbl)

theorem batch_congr_aux (env : Env) (f0 : FluidState) (s1 s2 : String)
    (targets : List String)
    (H1 : ∀ s i gu, env.phys.flashG s i gu = env.phys.flash s i)
    (H2 : f0.backend.spec = iphase_not_imposed) :
    ∀ rows g, (∀ v ∈ rows, DirectRowOk env f0 s1 s2 v) →
      g.backend.spec = f0.backend.spec →
      g.phase_imposed = f0.phase_imposed →
      g.round_decimals = f0.round_decimals →
      (f0.phase_imposed = true → g.phase = f0.phase) →
      (set_states_calc_props env g s1 s2 rows targets).2 =
        independentTable env f0 s1 s2 rows targets := by
  intro rows
  induction rows with
  | nil =>
      intro g _ _ _ _ _
      rfl
  | cons v rest ih =>
      intro g hrows hspec himp hround hph
      have hrow := hrows v (List.mem_cons_self v rest)
      obtain ⟨hcong, hnone, hspecres, himpres, hroundres, hphres⟩ :=
        set_state_row_congr env f0 g s1 s2 v H1 hspec himp hround hph hrow
      cases hres0 : set_state env f0 s1 s2 v true with
      | mk h r =>
          have hr : r = none := by
            rw [hres0] at hnone
            exact hnone
          subst hr
          rw [hres0] at hspecres himpres hroundres hphres
          have hs' : h.backend.spec = f0.backend.spec := by
            rw [hspecres]
            cases hb : f0.phase_imposed with
            | false => simp [H2]
            | true => simp
          unfold set_states_calc_props independentTable independentEval
          rw [hcong, hres0]
          cases hcpr : calc_props env h targets with
          | error e => simp [hcpr]
          | ok row =>
              simp only [hcpr]
              have hrec := ih h (fun w hw => hrows w (List.mem_cons_of_mem _ hw))
                hs' himpres hroundres (fun hhh => hphres hhh)
              cases hb : set_states_calc_props env h s1 s2 rest targets with
              | mk fB rB =>
                  rw [hb] at hrec
                  rw [← hrec]
                  cases rB with
                  | error e => simp
                  | ok tbl => simp

end Fluid

/-- A primary backend whose guess-assisted update path agrees exactly with
the plain update path, and which converges on every input pair: the two
flash inputs are echoed into the keyed outputs, the remaining outputs are
fixed, and the backend classifies every state as gas. -/
def physIdx : Physics :=
  { flash := fun _ inp =>
      .ok { keyed := [(inp.1.1, inp.1.2), (inp.2.1, inp.2.2), (iT, 300),
                      (iP, 77), (iDmolar, 10), (iQ, 2)],
            phaseIdx := some iphase_gas }
    flashG := fun _ inp _ =>
      .ok { keyed := [(inp.1.1, inp.1.2), (inp.2.1, inp.2.2), (iT, 300),
                      (iP, 77), (iDmolar, 10), (iQ, 2)],
            phaseIdx := some iphase_gas } }

def envIdx : Env :=
  { phys := physIdx, store := defaultStore, handlers := Fluid.defaultHandlers,
    rp := rpProbe, normF := none }

/-- The snapshot left by the direct `(T, P)` flash of `physIdx`. -/
def stIdx (v : ℚ × ℚ) : CPState :=
  { keyed := [(iT, v.1), (iP, v.2), (iT, 300), (iP, 77), (iDmolar, 10),
              (iQ, 2)],
    phaseIdx := some iphase_gas }

/-- The snapshot left by the `(Dmolar, T)` re-flash of the phase step. -/
def stIdx2 (v : ℚ × ℚ) : CPState :=
  { keyed := [(iDmolar, 10), (iT, v.1), (iT, 300), (iP, 77), (iDmolar, 10),
              (iQ, 2)],
    phaseIdx := some iphase_gas }

/-- The fluid state after the phase step of a `(T, P)` row on `physIdx`. -/
def fIdx1 (v : ℚ × ℚ) : FluidState :=
  { FluidState.init with
      phase := some gasPhase
      backend := { spec := iphase_not_imposed, cur := some (stIdx2 v) } }

/-- The fluid state after recording the converged triple of that row. -/
def fIdx2 (v : ℚ × ℚ) : FluidState :=
  { fIdx1 v with
      T := some v.1
      P := some 77
      D := some 10 }

/-- On the echoing backend every `(T, P)` row flashes directly from the
fresh instance, and the phase and triple-recording steps succeed. -/
theorem directRowIdx (v : ℚ × ℚ) :
    Fluid.DirectRowOk envIdx FluidState.init "T" "P" v :=
  ⟨propT, propP, none, none, false, false, iT, iP, v.1, v.2, stIdx v,
   fIdx1 v, fIdx2 v, by decide, by decide, rfl, rfl, rfl, rfl, rfl, rfl⟩

/-- C7 (amended): when the guess-assisted backend update agrees with the
plain update everywhere, the pre-batch instance carries no imposed backend
phase specification, and every row flashes directly (no two-phase
recovery) with successful phase and recording steps from the pre-batch
state, the table produced by `set_states_calc_props` equals the table of
independent `set_state` + `calc_props` evaluations of each row from the
pre-batch state; and, with no condition on the rows, a fatal failure on
any row — in its `set_state` or in its `calc_props` — aborts the whole
batch with that failure and no partial results. -/
theorem set_states_calc_props_refinement (env : Env) (f0 : FluidState)
    (s1 s2 : String) (targets : List String)
    (H1 : ∀ s i gu, env.phys.flashG s i gu = env.phys.flash s i)
    (H2 : f0.backend.spec = iphase_not_imposed) :
    (∀ rows, (∀ v ∈ rows, Fluid.DirectRowOk env f0 s1 s2 v) →
      (Fluid.set_states_calc_props env f0 s1 s2 rows targets).2 =
        Fluid.independentTable env f0 s1 s2 rows targets) ∧
    (∀ (f f1 : FluidState) (v : ℚ × ℚ) (rest : List (ℚ × ℚ)) (e : Err),
      Fluid.set_state env f s1 s2 v true = (f1, some e) →
      (Fluid.set_states_calc_props env f s1 s2 (v :: rest) targets).2 =
        .error e) ∧
    (∀ (f f1 : FluidState) (v : ℚ × ℚ) (rest : List (ℚ × ℚ)) (e : Err),
      Fluid.set_state env f s1 s2 v true = (f1, none) →
      Fluid.calc_props env f1 targets = .error e →
      (Fluid.set_states_calc_props env f s1 s2 (v :: rest) targets).2 =
        .error e) := by
  refine ⟨?_, ?_, ?_⟩
  · intro rows hrows
    exact Fluid.batch_congr_aux env f0 s1 s2 targets H1 H2 rows f0 hrows rfl
      rfl rfl (fun _ => rfl)
  · intro f f1 v rest e h
    unfold Fluid.set_states_calc_props
    rw [h]
  · intro f f1 v rest e h hc
    unfold Fluid.set_states_calc_props
    rw [h]
    dsimp only
    rw [hc]

/-- Concrete instantiation of the amended batch refinement: on the
guess-insensitive echoing backend, a two-row `(T, P)` batch produces
exactly the independent table, and a batch whose first property string is
unregistered aborts with the lookup failure of its first row. -/
theorem set_states_calc_props_refinement_witness :
    (Fluid.set_states_calc_props envIdx FluidState.init "T" "P"
        [(300, 100), (310, 110)] ["T", "P"]).2 =
      Fluid.independentTable envIdx FluidState.init "T" "P"
        [(300, 100), (310, 110)] ["T", "P"] ∧
    (Fluid.set_states_calc_props envIdx FluidState.init "ZZZ" "P"
        [(5, 6), (7, 8)] ["T"]).2 =
      .error (.valueError "Propriedade não encontrada: ZZZ") := by
  constructor
  · exact (set_states_calc_props_refinement envIdx FluidState.init "T" "P"
      ["T", "P"] (fun _ _ _ => rfl) rfl).1 [(300, 100), (310, 110)]
      (fun v _ => directRowIdx v)
  · exact (set_states_calc_props_refinement envIdx FluidState.init "ZZZ" "P"
      ["T"] (fun _ _ _ => rfl) rfl).2.1 FluidState.init FluidState.init (5, 6)
      [(7, 8)] (.valueError "Propriedade não encontrada: ZZZ")
      (by with_unfolding_all decide)
